import Mathlib

/-!
# Verification of the `vlist.js` virtual-list widget

Shallow embedding of `src/vlist.js` (the `VirtualList` windowing/recycling
engine).  DOM nodes become plain records, DOM measurements become explicit
state fields holding the values the environment would report, and the single
`setTimeout` based cleanup becomes an `Option` holding the absolute time at
which the pending cleanup fires.  JS numbers are modelled as `ℚ` (scroll
offsets, heights) and `ℤ` (indices, counts); the places where the source
truncates (`parseInt`) versus floors (`Math.floor`) are kept distinct.

Modelling conventions, stated once:
* `parseInt` applied to a number or to a `"<n>px"` string truncates the
  leading numeral toward zero; `jsTrunc` models this.  `Math.floor` and
  `Math.ceil` are `⌊·⌋` and `⌈·⌉`.
* The JS literal `.66` in `_maxBuffer` is modelled as the rational `66/100`.
* Division by zero is `0` in Lean while JS produces `Infinity`/`NaN`; every
  theorem below that touches a division carries the hypothesis (`itemHeight`
  positive) under which the source never divides by zero on that path.
* Fields that are `undefined` until `heightChanged` first runs
  (`cachedItemsLen`, `_maxBuffer`) are initialised to `0`; every code path
  that reads them is guarded by `_screenItemsLen` being set, which only
  happens in `heightChanged`, which also sets both fields.
* The mutual recursion `update → rowsPossiblyChanged → heightChanged →
  update` (which the source bounds at depth two in every reachable state) is
  embedded with explicit fuel; the public entry points use fuel 3, which is
  never exhausted on the paths the theorems take.
* `this.firstRow` is modelled as the reference the source keeps (`Option
  RowElem`); the source's `postBuildFxn` hook and the pinned row's width
  resize are external effects with no bearing on the modelled state.
-/

/-- JS `parseInt` on a (stringified) number: truncation toward zero. -/
def jsTrunc (q : ℚ) : ℤ := if 0 ≤ q then ⌊q⌋ else ⌈q⌉

/-- A row element: `style.top` encodes the index (`index * itemHeight` at
creation time) and `stale` models `data-rm="1"` / `display:none`. -/
structure RowElem where
  top : ℚ
  stale : Bool
deriving DecidableEq, Repr

/-- Observable element-lifecycle events of one operation: elements created
(`createRow` calls) and elements marked stale. -/
structure Ev where
  created : List RowElem
  marked : List RowElem
deriving DecidableEq, Repr

/-- The empty event record. -/
def Ev.nil : Ev := ⟨[], []⟩

/-- Event concatenation (events of a first phase followed by a second). -/
def Ev.app (a b : Ev) : Ev := ⟨a.created ++ b.created, a.marked ++ b.marked⟩

/-- The widget state: the fields of the `VirtualList` object together with
the DOM facts it reads (container/viewport heights, scroll position, the
height a measuring row would report) and the children of `innerContainer`
that carry class `vrow` (`elems`, in document order). -/
structure VList where
  itemHeight : ℚ
  items : Option ℕ
  totalRows : ℕ
  pinFirstRow : Bool
  screenItemsLen : ℤ
  cachedItemsLen : ℤ
  maxBuffer : ℚ
  lastRepaintY : ℚ
  scrollTop : ℚ
  curStartItem : Option ℤ
  firstRow : Option RowElem
  elems : List RowElem
  scrollerHeight : ℚ
  deleteNodesTimer : Option ℚ
  containerHeight : ℚ
  clientHeight : ℚ
  measuredRowHeight : ℚ
deriving DecidableEq, Repr

/-- `Math.ceil(h / itemHeight)` — the `_screenItemsLen` computation in
`heightChanged` (src/vlist.js:94). -/
def screenItemsOf (h ih : ℚ) : ℤ := ⌈h / ih⌉

/-- `self._screenItemsLen * 3` — the `cachedItemsLen` computation in
`heightChanged` (src/vlist.js:96). -/
def cachedItemsOf (sil : ℤ) : ℤ := sil * 3

/-- `self._screenItemsLen * .66 * self.itemHeight` — the `_maxBuffer`
computation in `heightChanged` (src/vlist.js:97). -/
def maxBufferOf (sil : ℤ) (ih : ℚ) : ℚ := (sil : ℚ) * (66 / 100) * ih

/-- The chunk start computed in `update` (src/vlist.js:333-334):
`first = parseInt(scrollTop / itemHeight) - screenItemsLen`, clamped to `0`
from below. -/
def windowStartOf (scrollTop ih : ℚ) (sil : ℤ) : ℤ :=
  let first := jsTrunc (scrollTop / ih) - sil
  if first < 0 then 0 else first

/-- The chunk end computed in `_renderChunk` (src/vlist.js:205-207):
`from + cachedItemsLen` clipped to `totalRows`. -/
def windowEndOf (start cached : ℤ) (totalRows : ℕ) : ℤ :=
  min (start + cached) (totalRows : ℤ)

/-- The half-open integer range `[a, b)` as a list. -/
def intRange (a b : ℤ) : List ℤ := (List.range (b - a).toNat).map (fun k => a + k)

/-- `createRow(i)` (src/vlist.js:170-192): builds the element for index `i`
(content is opaque), records it as `firstRow` when pinning is enabled and
`i = 0`, and tags it with `top = i * itemHeight`. -/
def createRow (s : VList) (i : ℤ) : VList × RowElem :=
  let item : RowElem := { top := (i : ℚ) * s.itemHeight, stale := false }
  (if s.pinFirstRow ∧ i = 0 then { s with firstRow := some item } else s, item)

/-- `getRow(index)` (src/vlist.js:155-168): the pinned row for index 0 when
pinning is enabled, else the first attached `.vrow` element whose
`parseInt(style.top) / itemHeight` equals the index. -/
def getRow (s : VList) (index : ℤ) : Option RowElem :=
  if index = 0 ∧ s.pinFirstRow then s.firstRow
  else s.elems.find? (fun e => decide (((jsTrunc e.top : ℚ) / s.itemHeight) = (index : ℚ)))

/-- Mark the first element whose encoded index is `i` stale (the
`getRow(i)`-then-`data-rm` step of the trim loops in `_renderChunk`,
src/vlist.js:238-242 and 250-254); returns the new list and the marked
element, if any. -/
def markRowIdx : List RowElem → ℚ → ℤ → List RowElem × List RowElem
  | [], _, _ => ([], [])
  | e :: rest, ih, i =>
    if ((jsTrunc e.top : ℚ) / ih) = (i : ℚ) then
      ({ e with stale := true } :: rest, [{ e with stale := true }])
    else
      let r := markRowIdx rest ih i
      (e :: r.1, r.2)

/-- One trim loop of `_renderChunk`: mark each index of `is` stale, skipping
index 0 when the first row is pinned. -/
def markRange : List RowElem → ℚ → List ℤ → Bool → List RowElem × List RowElem
  | elems, _, [], _ => (elems, [])
  | elems, ih, i :: rest, skipZeroPin =>
    if i = 0 ∧ skipZeroPin = true then markRange elems ih rest skipZeroPin
    else
      let r := markRowIdx elems ih i
      let r2 := markRange r.1 ih rest skipZeroPin
      (r2.1, r.2 ++ r2.2)

/-- The creation loop of `_renderChunk` (src/vlist.js:213-227): for each
index, skip index 0 when a pinned first row already exists, create when the
index lies outside the previously rendered window (or when no window was
ever rendered).  Threads the state because `createRow` can set `firstRow`. -/
def buildFragment : VList → List ℤ → VList × List RowElem
  | s, [] => (s, [])
  | s, i :: rest =>
    if i = 0 ∧ s.firstRow.isSome = true ∧ s.pinFirstRow = true then
      buildFragment s rest
    else
      let shouldCreate : Bool :=
        match s.curStartItem with
        | some cur => decide (i < cur) || decide (cur + s.cachedItemsLen ≤ i)
        | none => true
      if shouldCreate = true then
        let p := createRow s i
        let r := buildFragment p.1 rest
        (r.1, p.2 :: r.2)
      else buildFragment s rest

/-- `_renderChunk(node, from)` (src/vlist.js:204-260): create the missing
rows of `[from, finalItem)`, mark the start-trim and end-trim ranges of the
previous window stale, record the new window anchor, and append the new rows
(document fragment) at the end of the container's children. -/
def renderChunk (s : VList) (from_ : ℤ) : VList × Ev :=
  let finalItem := windowEndOf from_ s.cachedItemsLen s.totalRows
  let bf := buildFragment s (intRange from_ finalItem)
  let s1 := bf.1
  let tr :=
    match s1.curStartItem with
    | some last =>
      let r1 := markRange s1.elems s1.itemHeight (intRange (max last 0) from_) s1.pinFirstRow
      let r2 := markRange r1.1 s1.itemHeight (intRange finalItem (last + s1.cachedItemsLen)) s1.pinFirstRow
      (r2.1, r1.2 ++ r2.2)
    | none => (s1.elems, [])
  ({ s1 with elems := tr.1 ++ bf.2, curStartItem := some from_ }, ⟨bf.2, tr.2⟩)

/-- `heightChanged` (src/vlist.js:92-106), parameterised by the `update`
call it makes at the end: recompute `_screenItemsLen`, `cachedItemsLen`,
`_maxBuffer`, resize the scroll spacer, then update.  (The pinned row's
width resize has no modelled effect.) -/
def heightChangedWith (upd : VList → VList × Ev) (s : VList) : VList × Ev :=
  let sil := screenItemsOf s.containerHeight s.itemHeight
  upd { s with
          screenItemsLen := sil
          cachedItemsLen := cachedItemsOf sil
          maxBuffer := maxBufferOf sil s.itemHeight
          scrollerHeight := s.itemHeight * s.totalRows }

/-- `rowsPossiblyChanged` (src/vlist.js:67-90), parameterised by the
`update` used by the `heightChanged` it may trigger: re-derive `totalRows`
from `items.length` when an items array is present, then react to exactly
the first matching condition: unknown row height (measure one throwaway
row; abort if the measured height is still zero), changed row count, or an
unset `_screenItemsLen` with a laid-out container. -/
def rowsPossiblyChangedWith (upd : VList → VList × Ev) (s : VList) : VList × Ev :=
  let oldRowCount := s.totalRows
  let s1 := match s.items with
            | some n => { s with totalRows := n }
            | none => s
  if s1.itemHeight = 0 ∧ s1.totalRows ≠ 0 then
    let p := createRow s1 0
    let mh := p.1.measuredRowHeight
    let s2 := { p.1 with itemHeight := mh }
    if mh = 0 then (s2, ⟨[p.2], []⟩)
    else
      let r := heightChangedWith upd s2
      (r.1, Ev.app ⟨[p.2], []⟩ r.2)
  else if s1.totalRows ≠ oldRowCount ∧ s1.itemHeight ≠ 0 then
    heightChangedWith upd s1
  else if s1.totalRows ≠ 0 ∧ s1.itemHeight ≠ 0 ∧ s1.screenItemsLen = 0 ∧ 0 < s1.containerHeight then
    heightChangedWith upd s1
  else (s1, Ev.nil)

/-- The staleness check and conditional re-render at the heart of `update`
(src/vlist.js:330-339): when the window is stale (forced, never rendered,
or scrolled further than `_maxBuffer`) and the metrics allow it, render the
chunk anchored at `windowStartOf` and record the rendered offset. -/
def updateCore (force : Bool) (s : VList) : VList × Ev :=
  if force = true ∨ s.curStartItem = none ∨ s.maxBuffer < |s.scrollTop - s.lastRepaintY| then
    if 0 < s.itemHeight ∧ s.screenItemsLen ≠ 0 then
      let p := renderChunk s (windowStartOf s.scrollTop s.itemHeight s.screenItemsLen)
      ({ p.1 with lastRepaintY := s.scrollTop }, p.2)
    else (s, Ev.nil)
  else (s, Ev.nil)

/-- `update(force)` (src/vlist.js:300-342) with explicit fuel for the
nested `update` reached through `heightChanged`: run `rowsPossiblyChanged`,
run the staleness check and conditional re-render, and (re)schedule the
cleanup timer 100ms from `now`. -/
def updateGo : ℕ → ℚ → Bool → VList → VList × Ev
  | 0, _, _, s => (s, Ev.nil)
  | fuel + 1, now, force, s =>
    let r1 := rowsPossiblyChangedWith (fun t => updateGo fuel now false t) s
    let r2 := updateCore force r1.1
    ({ r2.1 with deleteNodesTimer := some (now + 100) }, Ev.app r1.2 r2.2)

/-- The public `update(force)` entry point; `now` is the current time used
by the cleanup scheduling. -/
def update (now : ℚ) (force : Bool) (s : VList) : VList × Ev :=
  updateGo 3 now force s

/-- The body of the cleanup timer (src/vlist.js:313-325): remove every
stale-marked element from the container, returning them (in order) as the
list the destructor hook is invoked on. -/
def cleanupBody (s : VList) : VList × List RowElem :=
  let bad := s.elems.filter (fun e => e.stale)
  ({ s with elems := s.elems.filter (fun e => !e.stale), deleteNodesTimer := none }, bad)

/-- `getRowIndexAt(y)` (src/vlist.js:146-153). -/
def getRowIndexAt (s : VList) (y : ℚ) : ℤ :=
  let pos := y + s.scrollTop
  let idx := ⌊pos / s.itemHeight⌋
  if idx < (s.totalRows : ℤ) then idx else -1

/-- `ensureRowVisible(row)` (src/vlist.js:128-136). -/
def ensureRowVisible (s : VList) (row : ℤ) : VList :=
  let top := (row : ℚ) * s.itemHeight
  let bottom := top + s.itemHeight
  if top < s.scrollTop then { s with scrollTop := top }
  else if s.scrollTop + s.clientHeight < bottom then
    { s with scrollTop := top - s.clientHeight + s.itemHeight }
  else s

/-- `setRowHeight(v)` (src/vlist.js:138-144). -/
def setRowHeight (now v : ℚ) (s : VList) : VList × Ev :=
  if v ≤ 0 ∨ v = s.itemHeight then (s, Ev.nil)
  else
    let topRow := getRowIndexAt s 0
    heightChangedWith (fun t => updateGo 3 now false t)
      { s with itemHeight := v, scrollTop := v * (topRow : ℚ) }

/-- `rebuild()` (src/vlist.js:273-298): mark every attached row stale,
forget the window anchor, re-derive metrics, recreate the pinned row, and
force a full update.  (The source also detaches the old pinned node from
its parent; the model clears the reference, which is what every later read
consults.) -/
def rebuild (now : ℚ) (s : VList) : VList × Ev :=
  let marked := s.elems.map (fun e => { e with stale := true })
  let s1 := { s with elems := marked, curStartItem := none }
  let r1 := rowsPossiblyChangedWith (fun t => updateGo 3 now false t) s1
  let s2 := r1.1
  let pin := s2.pinFirstRow
  let hasFirst := s2.firstRow.isSome
  let rows := s2.totalRows
  let s3 :=
    if pin then
      let s2a := if hasFirst then { s2 with firstRow := none } else s2
      if 0 < rows then (createRow s2a 0).1 else s2a
    else s2
  let r2 := updateGo 3 now true s3
  (r2.1, Ev.app ⟨[], marked⟩ (Ev.app r1.2 r2.2))

/-- The recognised construction options (src/vlist.js:32-48); `items` is
modelled by its length, `h` is the truthiness of `config.h`. -/
structure Config where
  itemHeight : Option ℚ
  items : Option ℕ
  totalRows : Option ℕ
  pinFirstRow : Bool
  h : Bool
deriving DecidableEq, Repr

/-- The row count recorded by the constructor (src/vlist.js:41-44): the
explicit `totalRows` option when present, else `items.length`, else
undefined (modelled as 0). -/
def initTotalRows (cfg : Config) : ℕ :=
  match cfg.totalRows with
  | some n => n
  | none => match cfg.items with
            | some n => n
            | none => 0

/-- The widget state right after the field initialisation of the
constructor, before the pinned row and the optional `config.h`
`heightChanged` call. -/
def initState (cfg : Config) (containerHeight clientHeight measuredRowHeight : ℚ) : VList :=
  { itemHeight := cfg.itemHeight.getD 0
    items := cfg.items
    totalRows := initTotalRows cfg
    pinFirstRow := cfg.pinFirstRow
    screenItemsLen := 0
    cachedItemsLen := 0
    maxBuffer := 0
    lastRepaintY := 0
    scrollTop := 0
    curStartItem := none
    firstRow := none
    elems := []
    scrollerHeight := cfg.itemHeight.getD 0 * (initTotalRows cfg : ℚ)
    deleteNodesTimer := none
    containerHeight := containerHeight
    clientHeight := clientHeight
    measuredRowHeight := measuredRowHeight }

/-- The `VirtualList` constructor (src/vlist.js:32-122): initialise the
fields, create the pinned row when enabled and rows exist, and run
`heightChanged` when `config.h` is truthy. -/
def init (cfg : Config) (containerHeight clientHeight measuredRowHeight now : ℚ) : VList × Ev :=
  let s0 := initState cfg containerHeight clientHeight measuredRowHeight
  let p :=
    if cfg.pinFirstRow ∧ 0 < initTotalRows cfg then
      let c := createRow s0 0
      (c.1, (⟨[c.2], []⟩ : Ev))
    else (s0, Ev.nil)
  if cfg.h then
    let r := heightChangedWith (fun t => updateGo 3 now false t) p.1
    (r.1, Ev.app p.2 r.2)
  else p

/-- The rendered window of a state, as the spec's half-open range:
`[curStartItem, min(curStartItem + cachedItemsLen, totalRows))`, when a
window has been rendered. -/
def renderedWindow (s : VList) : Option (ℤ × ℤ) :=
  s.curStartItem.map (fun c => (c, windowEndOf c s.cachedItemsLen s.totalRows))

/-- Spec-side notion (claims C2): the vertical span of row `i` intersects
the visible band `[o, o + vh)`. -/
def rowIntersectsBand (i : ℤ) (ih o vh : ℚ) : Prop :=
  (i : ℚ) * ih < o + vh ∧ o < ((i : ℚ) + 1) * ih

/-- Spec-side notion (claim C6): row `i`'s span lies fully within the
visible band `[scrollTop, scrollTop + clientHeight)`. -/
def rowFullyVisible (s : VList) (i : ℤ) : Prop :=
  s.scrollTop ≤ (i : ℚ) * s.itemHeight ∧
    ((i : ℚ) + 1) * s.itemHeight ≤ s.scrollTop + s.clientHeight

/-- Spec-side notion (claim C7): index `i` has a live element — it is the
pinned index 0, or a member of the currently rendered window. -/
def specLiveIndex (s : VList) (i : ℤ) : Prop :=
  (s.pinFirstRow = true ∧ i = 0) ∨
    (∃ c, s.curStartItem = some c ∧ c ≤ i ∧ i < windowEndOf c s.cachedItemsLen s.totalRows)

/-! ## Basic lemmas about the embedding -/

theorem Ev.nil_app (e : Ev) : Ev.app Ev.nil e = e := by
  cases e; rfl

theorem Ev.app_nil (e : Ev) : Ev.app e Ev.nil = e := by
  cases e
  simp [Ev.app, Ev.nil]

theorem intRange_eq_nil {a b : ℤ} (h : b ≤ a) : intRange a b = [] := by
  unfold intRange
  have : (b - a).toNat = 0 := Int.toNat_of_nonpos (by omega)
  rw [this]
  rfl

theorem windowStartOf_nonneg (st ih : ℚ) (sil : ℤ) : 0 ≤ windowStartOf st ih sil := by
  unfold windowStartOf
  dsimp only
  split
  · exact le_refl 0
  · omega

theorem windowStartOf_eq_max (st ih : ℚ) (sil : ℤ) (h : 0 ≤ st) (hih : 0 < ih) :
    windowStartOf st ih sil = max 0 (⌊st / ih⌋ - sil) := by
  unfold windowStartOf jsTrunc
  dsimp only
  rw [if_pos (div_nonneg h hih.le)]
  split
  · omega
  · omega

/-- `createRow` changes at most the `firstRow` field of the state. -/
theorem createRow_fr (s : VList) (i : ℤ) :
    (createRow s i).1 = { s with firstRow := (createRow s i).1.firstRow } := by
  unfold createRow
  split
  · rfl
  · rfl

/-- The creation loop changes at most the `firstRow` field of the state. -/
theorem buildFragment_fr (is : List ℤ) (s : VList) :
    (buildFragment s is).1 = { s with firstRow := (buildFragment s is).1.firstRow } := by
  induction is generalizing s with
  | nil => rfl
  | cons i rest ih =>
    simp only [buildFragment]
    split
    · exact ih s
    · split
      · have h1 := ih (createRow s i).1
        have h2 := createRow_fr s i
        calc (buildFragment (createRow s i).1 rest).1
            = { (createRow s i).1 with
                  firstRow := (buildFragment (createRow s i).1 rest).1.firstRow } := h1
          _ = { s with firstRow := (buildFragment (createRow s i).1 rest).1.firstRow } := by
                rw [h2]
      · exact ih s

/-- `_renderChunk` leaves the metric and environment fields unchanged and
records the new window anchor. -/
theorem renderChunk_frame (s : VList) (f : ℤ) :
    (renderChunk s f).1.itemHeight = s.itemHeight ∧
    (renderChunk s f).1.items = s.items ∧
    (renderChunk s f).1.totalRows = s.totalRows ∧
    (renderChunk s f).1.scrollTop = s.scrollTop ∧
    (renderChunk s f).1.screenItemsLen = s.screenItemsLen ∧
    (renderChunk s f).1.cachedItemsLen = s.cachedItemsLen ∧
    (renderChunk s f).1.maxBuffer = s.maxBuffer ∧
    (renderChunk s f).1.pinFirstRow = s.pinFirstRow ∧
    (renderChunk s f).1.containerHeight = s.containerHeight ∧
    (renderChunk s f).1.clientHeight = s.clientHeight ∧
    (renderChunk s f).1.measuredRowHeight = s.measuredRowHeight ∧
    (renderChunk s f).1.lastRepaintY = s.lastRepaintY ∧
    (renderChunk s f).1.deleteNodesTimer = s.deleteNodesTimer ∧
    (renderChunk s f).1.curStartItem = some f := by
  have h := buildFragment_fr (intRange f (windowEndOf f s.cachedItemsLen s.totalRows)) s
  unfold renderChunk
  dsimp only
  rw [h]
  exact ⟨rfl, rfl, rfl, rfl, rfl, rfl, rfl, rfl, rfl, rfl, rfl, rfl, rfl, rfl⟩

/-- Under a known row height, a row count in sync with `items`, and a set
`_screenItemsLen`, `rowsPossiblyChanged` changes nothing and triggers no
`heightChanged`. -/
theorem rowsPossiblyChanged_id (upd : VList → VList × Ev) (s : VList)
    (hih : s.itemHeight ≠ 0)
    (hsync : s.items = none ∨ s.items = some s.totalRows)
    (hsil : s.screenItemsLen ≠ 0) :
    rowsPossiblyChangedWith upd s = (s, Ev.nil) := by
  have hs1 : (match s.items with
              | some n => { s with totalRows := n }
              | none => s) = s := by
    rcases hsync with h | h
    · rw [h]
    · calc (match s.items with
            | some n => { s with totalRows := n }
            | none => s)
          = { s with totalRows := s.totalRows } := by rw [h]
        _ = s := rfl
  unfold rowsPossiblyChangedWith
  dsimp only
  rw [hs1]
  rw [if_neg (fun h => hih h.1)]
  rw [if_neg (fun h => h.1 rfl)]
  rw [if_neg (fun h => hsil h.2.2.1)]

/-- When nothing is stale, the staleness-and-render step does nothing. -/
theorem updateCore_not_stale (force : Bool) (s : VList) (c : ℤ)
    (hforce : force = false)
    (hcur : s.curStartItem = some c)
    (hnb : |s.scrollTop - s.lastRepaintY| ≤ s.maxBuffer) :
    updateCore force s = (s, Ev.nil) := by
  unfold updateCore
  rw [if_neg]
  rintro (h | h | h)
  · rw [hforce] at h
    exact Bool.noConfusion h
  · rw [hcur] at h
    exact Option.noConfusion h
  · exact absurd hnb (not_le.mpr h)

/-- When the window is stale and the metrics allow rendering, the
staleness-and-render step renders the chunk anchored at `windowStartOf` and
records the rendered offset. -/
theorem updateCore_stale_render (force : Bool) (s : VList)
    (hih : 0 < s.itemHeight)
    (hsil : s.screenItemsLen ≠ 0)
    (hstale : force = true ∨ s.curStartItem = none ∨
      s.maxBuffer < |s.scrollTop - s.lastRepaintY|) :
    updateCore force s =
      ({ (renderChunk s (windowStartOf s.scrollTop s.itemHeight s.screenItemsLen)).1 with
           lastRepaintY := s.scrollTop },
       (renderChunk s (windowStartOf s.scrollTop s.itemHeight s.screenItemsLen)).2) := by
  unfold updateCore
  rw [if_pos hstale, if_pos ⟨hih, hsil⟩]

/-- When the metrics forbid rendering, the staleness-and-render step does
nothing even when the window is stale. -/
theorem updateCore_no_metrics (force : Bool) (s : VList)
    (h : ¬ (0 < s.itemHeight ∧ s.screenItemsLen ≠ 0)) :
    updateCore force s = (s, Ev.nil) := by
  unfold updateCore
  rw [if_neg h]
  split
  · rfl
  · rfl

/-- In a state in which `rowsPossiblyChanged` is the identity, one `update`
step is the staleness-and-render step followed by rescheduling the cleanup
timer. -/
theorem updateGo_split (fuel : ℕ) (now : ℚ) (force : Bool) (s : VList)
    (h : rowsPossiblyChangedWith (fun t => updateGo fuel now false t) s = (s, Ev.nil)) :
    updateGo (fuel + 1) now force s =
      ({ (updateCore force s).1 with deleteNodesTimer := some (now + 100) },
       (updateCore force s).2) := by
  simp only [updateGo]
  rw [h]
  exact Prod.ext rfl (Ev.nil_app _)

/-- Every `update` call (at any fuel above zero) ends by scheduling the
cleanup timer 100ms from now, cancelling whatever was pending. -/
theorem updateGo_timer (fuel : ℕ) (now : ℚ) (force : Bool) (s : VList) :
    (updateGo (fuel + 1) now force s).1.deleteNodesTimer = some (now + 100) := by
  simp only [updateGo]

theorem renderedWindow_eq (s : VList) (c : ℤ) (hc : s.curStartItem = some c) :
    renderedWindow s = some (c, windowEndOf c s.cachedItemsLen s.totalRows) := by
  unfold renderedWindow
  rw [hc]
  rfl

/-- C1: for every update call in which staleness holds (force requested, no
window ever rendered, or the scroll offset moved further than `_maxBuffer`)
with RowHeight > 0 and ScreenItemsLen > 0 (in a state whose row count is in
sync with `items`), the newly materialized window is
`[start, min(start + CachedItemsLen, totalRows))` with
`start = max(0, floor(scrollTop / RowHeight) - ScreenItemsLen)`. -/
theorem update_stale_window (now : ℚ) (force : Bool) (s : VList)
    (hih : 0 < s.itemHeight)
    (hsil : s.screenItemsLen ≠ 0)
    (hsync : s.items = none ∨ s.items = some s.totalRows)
    (hscroll : 0 ≤ s.scrollTop)
    (hstale : force = true ∨ s.curStartItem = none ∨
      s.maxBuffer < |s.scrollTop - s.lastRepaintY|) :
    windowStartOf s.scrollTop s.itemHeight s.screenItemsLen =
      max 0 (⌊s.scrollTop / s.itemHeight⌋ - s.screenItemsLen) ∧
    renderedWindow (update now force s).1 =
      some (windowStartOf s.scrollTop s.itemHeight s.screenItemsLen,
            windowEndOf (windowStartOf s.scrollTop s.itemHeight s.screenItemsLen)
              s.cachedItemsLen s.totalRows) := by
  have hrpc := rowsPossiblyChanged_id (fun t => updateGo 2 now false t) s
    (ne_of_gt hih) hsync hsil
  have hspl := updateGo_split 2 now force s hrpc
  have hcore := updateCore_stale_render force s hih hsil hstale
  have e1 : (update now force s).1 =
      { (renderChunk s (windowStartOf s.scrollTop s.itemHeight s.screenItemsLen)).1 with
          lastRepaintY := s.scrollTop, deleteNodesTimer := some (now + 100) } := by
    show (updateGo (2 + 1) now force s).1 = _
    rw [hspl, hcore]
  obtain ⟨_, _, htot, _, _, hcach, _, _, _, _, _, _, _, hcur⟩ :=
    renderChunk_frame s (windowStartOf s.scrollTop s.itemHeight s.screenItemsLen)
  refine ⟨windowStartOf_eq_max _ _ _ hscroll hih, ?_⟩
  have hc : (update now force s).1.curStartItem =
      some (windowStartOf s.scrollTop s.itemHeight s.screenItemsLen) := by
    rw [e1]
    exact hcur
  rw [renderedWindow_eq _ _ hc, e1]
  show some (_, windowEndOf _
      (renderChunk s (windowStartOf s.scrollTop s.itemHeight s.screenItemsLen)).1.cachedItemsLen
      (renderChunk s (windowStartOf s.scrollTop s.itemHeight s.screenItemsLen)).1.totalRows) = _
  rw [hcach, htot]

/-- The concrete scenario state of claim C1: `totalRows = 1000`,
`itemHeight = 20`, viewport height `200` (so `ScreenItemsLen = 10`,
`CachedItemsLen = 30`, `MaxBuffer = 132`), scrolled to offset `400`,
no window rendered yet. -/
def stateC1 : VList :=
  { itemHeight := 20, items := none, totalRows := 1000, pinFirstRow := false,
    screenItemsLen := 10, cachedItemsLen := 30, maxBuffer := 132,
    lastRepaintY := 0, scrollTop := 400, curStartItem := none, firstRow := none,
    elems := [], scrollerHeight := 20000, deleteNodesTimer := none,
    containerHeight := 200, clientHeight := 200, measuredRowHeight := 20 }

/-- C1 witness: in the scenario state the metrics derive as the claim says
(`ScreenItemsLen = ceil(200/20) = 10`, `CachedItemsLen = 30`) and the
rendered window after `update` is `[10, 40)`. -/
theorem update_stale_window_witness :
    screenItemsOf 200 20 = 10 ∧ cachedItemsOf 10 = 30 ∧
    renderedWindow (update 0 false stateC1).1 = some (10, 40) := by
  have h := update_stale_window 0 false stateC1
    (by show (0:ℚ) < 20; norm_num)
    (by show (10:ℤ) ≠ 0; norm_num)
    (Or.inl rfl)
    (by show (0:ℚ) ≤ 400; norm_num)
    (Or.inr (Or.inl rfl))
  refine ⟨by norm_num [screenItemsOf], by norm_num [cachedItemsOf], h.2.trans ?_⟩
  norm_num [windowStartOf, windowEndOf, jsTrunc, stateC1]

/-- C10: with RowHeight > 0, `getRowIndexAt(y)` returns
`floor((y + scrollTop) / RowHeight)` whenever that value is below
`totalRows`, with no lower-bound check: above the first row it returns a
negative index rather than the not-found sentinel, for
`y + scrollTop ∈ [-RowHeight, 0)` it returns exactly `-1` — the same value
the sentinel branch returns for coordinates beyond the last row. -/
theorem getRowIndexAt_no_lower_bound (s : VList) (y : ℚ)
    (hih : 0 < s.itemHeight) :
    (⌊(y + s.scrollTop) / s.itemHeight⌋ < (s.totalRows : ℤ) →
      getRowIndexAt s y = ⌊(y + s.scrollTop) / s.itemHeight⌋) ∧
    (y + s.scrollTop < 0 → getRowIndexAt s y < 0) ∧
    (-s.itemHeight ≤ y + s.scrollTop → y + s.scrollTop < 0 →
      getRowIndexAt s y = -1) ∧
    ((s.totalRows : ℤ) ≤ ⌊(y + s.scrollTop) / s.itemHeight⌋ →
      getRowIndexAt s y = -1) := by
  unfold getRowIndexAt
  dsimp only
  refine ⟨fun h => if_pos h, fun h => ?_, fun h1 h2 => ?_, fun h => if_neg (not_lt.mpr h)⟩
  · have hx : (y + s.scrollTop) / s.itemHeight < 0 := div_neg_of_neg_of_pos h hih
    have hf : ⌊(y + s.scrollTop) / s.itemHeight⌋ < 0 := Int.floor_lt.mpr (by exact_mod_cast hx)
    rw [if_pos (lt_of_lt_of_le hf (by exact_mod_cast Int.ofNat_zero_le s.totalRows))]
    exact hf
  · have hx : (y + s.scrollTop) / s.itemHeight < 0 := div_neg_of_neg_of_pos h2 hih
    have hlo : (-1 : ℚ) ≤ (y + s.scrollTop) / s.itemHeight := by
      rw [le_div_iff hih]
      linarith
    have hf : ⌊(y + s.scrollTop) / s.itemHeight⌋ = -1 := by
      rw [Int.floor_eq_iff]
      constructor
      · exact_mod_cast hlo
      · push_cast
        linarith
    rw [hf]
    rw [if_pos]
    have : (0 : ℤ) ≤ (s.totalRows : ℤ) := Int.ofNat_zero_le s.totalRows
    omega

/-- A concrete ready state for the C10 witness: row height 10, scroll
offset 0, five rows. -/
def stateC10 : VList :=
  { itemHeight := 10, items := none, totalRows := 5, pinFirstRow := false,
    screenItemsLen := 1, cachedItemsLen := 3, maxBuffer := 33,
    lastRepaintY := 0, scrollTop := 0, curStartItem := none, firstRow := none,
    elems := [], scrollerHeight := 50, deleteNodesTimer := none,
    containerHeight := 10, clientHeight := 10, measuredRowHeight := 10 }

/-- C10 witness: in the concrete state, `getRowIndexAt 25 = 2` (the floor
formula), `getRowIndexAt (-5) = -1` (negative coordinate above the first
row, indistinguishable from the sentinel), and `getRowIndexAt 100 = -1`
(beyond the last row). -/
theorem getRowIndexAt_no_lower_bound_witness :
    getRowIndexAt stateC10 25 = 2 ∧ getRowIndexAt stateC10 (-5) = -1 ∧
    getRowIndexAt stateC10 100 = -1 := by
  have h25 := getRowIndexAt_no_lower_bound stateC10 25 (by show (0:ℚ) < 10; norm_num)
  have hm5 := getRowIndexAt_no_lower_bound stateC10 (-5) (by show (0:ℚ) < 10; norm_num)
  have h100 := getRowIndexAt_no_lower_bound stateC10 100 (by show (0:ℚ) < 10; norm_num)
  refine ⟨(h25.1 (by norm_num [stateC10])).trans (by norm_num [stateC10]), ?_, ?_⟩
  · exact hm5.2.2.1 (by show (-10:ℚ) ≤ -5 + 0; norm_num) (by show (-5:ℚ) + 0 < 0; norm_num)
  · exact h100.2.2.2 (by norm_num [stateC10])

/-- The state of the C6 counterexample: row height 50 exceeds the viewport
height 30, scrolled to offset 100. -/
def stateC6 : VList :=
  { itemHeight := 50, items := none, totalRows := 1000, pinFirstRow := false,
    screenItemsLen := 1, cachedItemsLen := 3, maxBuffer := 33,
    lastRepaintY := 100, scrollTop := 100, curStartItem := some 0, firstRow := none,
    elems := [], scrollerHeight := 50000, deleteNodesTimer := none,
    containerHeight := 30, clientHeight := 30, measuredRowHeight := 50 }

/-- C6 counterexample: with RowHeight 50 and viewport height 30, index 0 is
a valid row and RowHeight is known, yet after `ensureRowVisible(0)` the
row's span `[0, 50)` does not lie within the visible band `[0, 30)` — a row
taller than the viewport can never be fully visible, which the claim does
not except. -/
theorem ensureRowVisible_claim_counterexample :
    0 < stateC6.itemHeight ∧ (0:ℤ) ≤ 0 ∧ (0:ℤ) < (stateC6.totalRows : ℤ) ∧
    (ensureRowVisible stateC6 0).scrollTop = 0 ∧
    ¬ rowFullyVisible (ensureRowVisible stateC6 0) 0 := by
  refine ⟨by show (0:ℚ) < 50; norm_num, le_refl 0, by norm_num [stateC6], ?_, ?_⟩
  · norm_num [ensureRowVisible, stateC6]
  · norm_num [rowFullyVisible, ensureRowVisible, stateC6]

/-- C6 (amended): provided the row height does not exceed the viewport
height, `ensureRowVisible(row)` leaves the row's span fully inside
`[scrollTop, scrollTop + clientHeight)`, and the adjustment is minimal:
the offset drops to the row's top exactly when the top was above the
current offset, rises to `bottom - clientHeight` exactly when the bottom
exceeded the visible bottom, and the state is unchanged otherwise. -/
theorem ensureRowVisible_within_viewport (s : VList) (row : ℤ)
    (hih : 0 < s.itemHeight) (hfit : s.itemHeight ≤ s.clientHeight)
    (h0 : 0 ≤ row) (hT : row < (s.totalRows : ℤ)) :
    rowFullyVisible (ensureRowVisible s row) row ∧
    ((row : ℚ) * s.itemHeight < s.scrollTop →
      (ensureRowVisible s row).scrollTop = (row : ℚ) * s.itemHeight) ∧
    (¬ (row : ℚ) * s.itemHeight < s.scrollTop →
      s.scrollTop + s.clientHeight < (row : ℚ) * s.itemHeight + s.itemHeight →
      (ensureRowVisible s row).scrollTop =
        (row : ℚ) * s.itemHeight - s.clientHeight + s.itemHeight) ∧
    (¬ (row : ℚ) * s.itemHeight < s.scrollTop →
      ¬ s.scrollTop + s.clientHeight < (row : ℚ) * s.itemHeight + s.itemHeight →
      ensureRowVisible s row = s) := by
  have hring : ((row : ℚ) + 1) * s.itemHeight = (row : ℚ) * s.itemHeight + s.itemHeight := by
    ring
  unfold ensureRowVisible rowFullyVisible
  dsimp only
  by_cases h1 : (row : ℚ) * s.itemHeight < s.scrollTop
  · rw [if_pos h1]
    dsimp only
    exact ⟨⟨le_refl _, by rw [hring]; linarith⟩, fun _ => rfl,
      fun h _ => absurd h1 h, fun h _ => absurd h1 h⟩
  · rw [if_neg h1]
    by_cases h2 : s.scrollTop + s.clientHeight < (row : ℚ) * s.itemHeight + s.itemHeight
    · rw [if_pos h2]
      dsimp only
      exact ⟨⟨by linarith, by rw [hring]; linarith⟩, fun h => absurd h h1,
        fun _ _ => rfl, fun _ h => absurd h2 h⟩
    · rw [if_neg h2]
      exact ⟨⟨not_lt.mp h1, by rw [hring]; linarith [not_lt.mp h2]⟩,
        fun h => absurd h h1, fun _ h => absurd h h2, fun _ _ => rfl⟩

/-- The state of the C6 witness: row height 10 fits the viewport height 30,
scrolled to offset 100. -/
def stateC6w : VList :=
  { stateC6 with itemHeight := 10, clientHeight := 30, measuredRowHeight := 10 }

/-- C6 witness: in the fitting state, `ensureRowVisible(0)` scrolls up to
offset 0 and row 0's span lies fully within the viewport band. -/
theorem ensureRowVisible_within_viewport_witness :
    rowFullyVisible (ensureRowVisible stateC6w 0) 0 ∧
    (ensureRowVisible stateC6w 0).scrollTop = 0 := by
  have h := ensureRowVisible_within_viewport stateC6w 0
    (by show (0:ℚ) < 10; norm_num) (by show (10:ℚ) ≤ 30; norm_num)
    (le_refl 0) (by norm_num [stateC6w, stateC6])
  refine ⟨h.1, (h.2.1 (by show (0:ℚ) * 10 < 100; norm_num)).trans (by norm_num)⟩

/-- The state of the C7 counterexample: the window is `[10, 40)` but a
stale-marked element encoding index 5 is still attached (marked, not yet
collected). -/
def stateC7 : VList :=
  { itemHeight := 10, items := none, totalRows := 1000, pinFirstRow := false,
    screenItemsLen := 10, cachedItemsLen := 30, maxBuffer := 66,
    lastRepaintY := 100, scrollTop := 100, curStartItem := some 10, firstRow := none,
    elems := [{ top := 50, stale := true }], scrollerHeight := 10000,
    deleteNodesTimer := none, containerHeight := 100, clientHeight := 100,
    measuredRowHeight := 10 }

/-- C7 counterexample: index 5 is outside the rendered window `[10, 40)`
and its element is stale-marked, so it has no live element — yet
`getRow(5)` returns that stale element instead of none. -/
theorem getRow_claim_counterexample :
    getRow stateC7 5 = some { top := 50, stale := true } ∧
    (RowElem.mk 50 true).stale = true ∧
    ¬ specLiveIndex stateC7 5 := by
  refine ⟨?_, rfl, ?_⟩
  · norm_num [getRow, stateC7, jsTrunc, List.find?]
  · rintro (⟨hpin, _⟩ | ⟨c, hc, hle, _⟩)
    · exact Bool.noConfusion hpin
    · have hc10 : c = 10 := by
        have : (some 10 : Option ℤ) = some c := hc
        exact (Option.some.inj this).symm
      omega

/-- C7 (amended): `getRow(index)` returns the pinned-row reference for
index 0 when pinning is enabled; otherwise it returns the first *attached*
element whose encoded offset matches the index — whether live or stale —
and returns none exactly when no attached element encodes the index.  A
stale-but-uncollected element can therefore be returned. -/
theorem getRow_spec (s : VList) (i : ℤ) :
    (s.pinFirstRow = true → getRow s 0 = s.firstRow) ∧
    (¬ (i = 0 ∧ s.pinFirstRow = true) →
      (∀ e, getRow s i = some e →
        e ∈ s.elems ∧ ((jsTrunc e.top : ℚ) / s.itemHeight) = (i : ℚ)) ∧
      ((∀ e ∈ s.elems, ((jsTrunc e.top : ℚ) / s.itemHeight) ≠ (i : ℚ)) →
        getRow s i = none)) := by
  constructor
  · intro hpin
    unfold getRow
    rw [if_pos ⟨rfl, hpin⟩]
  · intro hnp
    have hget : getRow s i =
        s.elems.find? (fun e => decide (((jsTrunc e.top : ℚ) / s.itemHeight) = (i : ℚ))) := by
      unfold getRow
      rw [if_neg hnp]
    constructor
    · intro e he
      rw [hget] at he
      refine ⟨List.mem_of_find?_eq_some he, ?_⟩
      have := List.find?_some he
      exact of_decide_eq_true this
    · intro hall
      rw [hget]
      rw [List.find?_eq_none]
      intro e hmem
      simpa using hall e hmem

/-- The pinned state of the C7 witness. -/
def stateC7pin : VList :=
  { stateC7 with pinFirstRow := true, firstRow := some { top := 0, stale := false } }

/-- C7 witness: with pinning enabled `getRow(0)` returns the pinned-row
reference, and `getRow(7)` returns none when no attached element encodes
index 7. -/
theorem getRow_spec_witness :
    getRow stateC7pin 0 = some { top := 0, stale := false } ∧
    getRow stateC7 7 = none := by
  constructor
  · exact (getRow_spec stateC7pin 0).1 rfl
  · refine ((getRow_spec stateC7 7).2 ?_).2 ?_
    · rintro ⟨h, _⟩
      norm_num at h
    · intro e hmem
      have : e = { top := 50, stale := true } := by
        simpa [stateC7] using hmem
      rw [this]
      norm_num [jsTrunc, stateC7]

/-- C4: every `update` call cancels any pending cleanup timer and starts a
new one (the single timer slot holds `now + 100`, whatever was pending
before, so at most one cleanup is pending); two `update` calls 10ms apart
leave exactly one pending cleanup, firing 100ms after the second call; and
the cleanup body removes exactly the stale-marked elements (the returned
list is what the destructor hook is invoked on), keeps every non-stale
element, and never touches the pinned-row reference — everything it
destructs is stale-marked, which the pinned row never is. -/
theorem update_cleanup_schedule (s s2 : VList) (t : ℚ) (force : Bool) :
    (update t force s).1.deleteNodesTimer = some (t + 100) ∧
    (update (t + 10) false (update t false s).1).1.deleteNodesTimer = some (t + 10 + 100) ∧
    (cleanupBody s2).2 = s2.elems.filter (fun e => e.stale) ∧
    (cleanupBody s2).1.elems = s2.elems.filter (fun e => !e.stale) ∧
    (cleanupBody s2).1.firstRow = s2.firstRow ∧
    (∀ e, e ∈ (cleanupBody s2).2 → e.stale = true) := by
  refine ⟨updateGo_timer 2 t force s, updateGo_timer 2 (t + 10) false _, rfl, rfl, rfl, ?_⟩
  intro e he
  have : e ∈ s2.elems.filter (fun e => e.stale) := he
  exact (List.mem_filter.mp this).2

/-- The state of the C4 witness: one stale and one live attached element,
and a pinned-row reference. -/
def stateC4 : VList :=
  { itemHeight := 10, items := none, totalRows := 1000, pinFirstRow := true,
    screenItemsLen := 10, cachedItemsLen := 30, maxBuffer := 66,
    lastRepaintY := 100, scrollTop := 100, curStartItem := some 10,
    firstRow := some { top := 0, stale := false },
    elems := [{ top := 50, stale := true }, { top := 100, stale := false }],
    scrollerHeight := 10000, deleteNodesTimer := some 42,
    containerHeight := 100, clientHeight := 100, measuredRowHeight := 10 }

/-- C4 witness: two updates at times 0 and 10 leave the single pending
cleanup at time 110; on the concrete state the cleanup destructs exactly
the stale element, keeps the live one, and leaves the pinned-row reference
in place. -/
theorem update_cleanup_schedule_witness :
    (update 10 false (update 0 false stateC1).1).1.deleteNodesTimer = some 110 ∧
    (cleanupBody stateC4).2 = [{ top := 50, stale := true }] ∧
    (cleanupBody stateC4).1.elems = [{ top := 100, stale := false }] ∧
    (cleanupBody stateC4).1.firstRow = some { top := 0, stale := false } := by
  have h := update_cleanup_schedule stateC1 stateC4 0 false
  refine ⟨?_, h.2.2.1.trans ?_, h.2.2.2.1.trans ?_, h.2.2.2.2.1.trans rfl⟩
  · have h2 := h.2.1
    norm_num at h2
    exact h2
  · norm_num [stateC4, List.filter]
  · norm_num [stateC4, List.filter]


/-! ## Frame preservation through `update` -/

/-- The fields an operation of the widget never changes (plus `itemHeight`
when the row height is already known, and `totalRows` when the recorded
count is in sync with `items`). -/
def FramePreserved (upd : VList → VList × Ev) : Prop :=
  ∀ t : VList,
    (upd t).1.items = t.items ∧
    (upd t).1.scrollTop = t.scrollTop ∧
    (upd t).1.containerHeight = t.containerHeight ∧
    (upd t).1.clientHeight = t.clientHeight ∧
    (upd t).1.measuredRowHeight = t.measuredRowHeight ∧
    (upd t).1.pinFirstRow = t.pinFirstRow ∧
    (t.itemHeight ≠ 0 → (upd t).1.itemHeight = t.itemHeight) ∧
    ((t.items = none ∨ t.items = some t.totalRows) → (upd t).1.totalRows = t.totalRows)

set_option maxHeartbeats 2000000 in
theorem updateCore_framePreserved (force : Bool) : FramePreserved (updateCore force) := by
  intro t
  by_cases h1 : force = true ∨ t.curStartItem = none ∨
      t.maxBuffer < |t.scrollTop - t.lastRepaintY|
  · by_cases h2 : 0 < t.itemHeight ∧ t.screenItemsLen ≠ 0
    · rw [updateCore_stale_render force t h2.1 h2.2 h1]
      obtain ⟨hih, hit, htot, hst, _, _, _, hpin, hch, hcl, hmh, _, _, _⟩ :=
        renderChunk_frame t (windowStartOf t.scrollTop t.itemHeight t.screenItemsLen)
      exact ⟨hit, hst, hch, hcl, hmh, hpin, fun _ => hih, fun _ => htot⟩
    · rw [updateCore_no_metrics force t h2]
      exact ⟨rfl, rfl, rfl, rfl, rfl, rfl, fun _ => rfl, fun _ => rfl⟩
  · have he : updateCore force t = (t, Ev.nil) := by
      unfold updateCore
      rw [if_neg h1]
    rw [he]
    exact ⟨rfl, rfl, rfl, rfl, rfl, rfl, fun _ => rfl, fun _ => rfl⟩

theorem heightChangedWith_framePreserved (upd : VList → VList × Ev)
    (hupd : FramePreserved upd) : FramePreserved (heightChangedWith upd) := by
  intro t
  unfold heightChangedWith
  exact hupd _


set_option maxHeartbeats 2000000 in
theorem rowsPossiblyChangedWith_framePreserved (upd : VList → VList × Ev)
    (hupd : FramePreserved upd) : FramePreserved (rowsPossiblyChangedWith upd) := by
  have hhc := heightChangedWith_framePreserved upd hupd
  intro t
  unfold rowsPossiblyChangedWith
  dsimp only
  rcases hi : t.items with _ | m
  · dsimp only
    split
    · rename_i hcond
      have hcr := createRow_fr t 0
      split
      · rw [hcr]
        exact ⟨hi, rfl, rfl, rfl, rfl, rfl, fun hne => absurd hcond.1 hne, fun _ => rfl⟩
      · obtain ⟨hit, hst, hch, hcl, hmh, hpin, _, htot⟩ := hhc
          { (createRow t 0).1 with itemHeight := (createRow t 0).1.measuredRowHeight }
        refine ⟨hit.trans (by rw [hcr]; exact hi), hst.trans (by rw [hcr]),
          hch.trans (by rw [hcr]), hcl.trans (by rw [hcr]), hmh.trans (by rw [hcr]),
          hpin.trans (by rw [hcr]), fun hne => absurd hcond.1 hne, fun _ => ?_⟩
        refine (htot ?_).trans (by rw [hcr])
        left
        rw [hcr]
        exact hi
    · split
      · rename_i hcond
        exact absurd rfl hcond.1
      · split
        · obtain ⟨hit, hst, hch, hcl, hmh, hpin, hih, htot⟩ := hhc t
          exact ⟨hit.trans hi, hst, hch, hcl, hmh, hpin, hih, fun _ => htot (Or.inl hi)⟩
        · exact ⟨hi, rfl, rfl, rfl, rfl, rfl, fun _ => rfl, fun _ => rfl⟩
  · dsimp only
    split
    · rename_i hcond
      have hcr := createRow_fr { t with items := some m, totalRows := m } 0
      split
      · rw [hcr]
        refine ⟨rfl, rfl, rfl, rfl, rfl, rfl, fun hne => absurd hcond.1 hne, fun hs => ?_⟩
        rcases hs with h | h
        · exact Option.noConfusion h
        · exact Option.some.inj h
      · obtain ⟨hit, hst, hch, hcl, hmh, hpin, _, htot⟩ := hhc
          { (createRow { t with items := some m, totalRows := m } 0).1 with
              itemHeight := (createRow { t with items := some m, totalRows := m } 0).1.measuredRowHeight }
        refine ⟨hit.trans (by rw [hcr]), hst.trans (by rw [hcr]),
          hch.trans (by rw [hcr]), hcl.trans (by rw [hcr]), hmh.trans (by rw [hcr]),
          hpin.trans (by rw [hcr]), fun hne => absurd hcond.1 hne, fun hs => ?_⟩
        have hmeq : m = t.totalRows := by
          rcases hs with h | h
          · exact Option.noConfusion h
          · exact Option.some.inj h
        refine ((htot ?_).trans (by rw [hcr])).trans hmeq
        right
        rw [hcr]
    · split
      · rename_i hcond
        obtain ⟨hit, hst, hch, hcl, hmh, hpin, hih, _⟩ :=
          hhc { t with items := some m, totalRows := m }
        refine ⟨hit, hst, hch, hcl, hmh, hpin, hih, fun hs => ?_⟩
        have hmeq : m = t.totalRows := by
          rcases hs with h | h
          · exact Option.noConfusion h
          · exact Option.some.inj h
        exact absurd hmeq hcond.1
      · split
        · obtain ⟨hit, hst, hch, hcl, hmh, hpin, hih, htot⟩ :=
            hhc { t with items := some m, totalRows := m }
          refine ⟨hit, hst, hch, hcl, hmh, hpin, hih, fun hs => ?_⟩
          have hmeq : m = t.totalRows := by
            rcases hs with h | h
            · exact Option.noConfusion h
            · exact Option.some.inj h
          exact (htot (Or.inr rfl)).trans hmeq
        · refine ⟨rfl, rfl, rfl, rfl, rfl, rfl, fun _ => rfl, fun hs => ?_⟩
          rcases hs with h | h
          · exact Option.noConfusion h
          · exact Option.some.inj h

theorem updateGo_framePreserved (fuel : ℕ) (now : ℚ) (force : Bool) :
    FramePreserved (fun t => updateGo fuel now force t) := by
  induction fuel generalizing force with
  | zero =>
    intro t
    exact ⟨rfl, rfl, rfl, rfl, rfl, rfl, fun _ => rfl, fun _ => rfl⟩
  | succ n IH =>
    intro t
    have hrpc := rowsPossiblyChangedWith_framePreserved
      (fun t => updateGo n now false t) (IH false) t
    have hcore := updateCore_framePreserved force
      (rowsPossiblyChangedWith (fun t => updateGo n now false t) t).1
    obtain ⟨hit1, hst1, hch1, hcl1, hmh1, hpin1, hih1, htot1⟩ := hrpc
    obtain ⟨hit2, hst2, hch2, hcl2, hmh2, hpin2, hih2, htot2⟩ := hcore
    have hgo : (updateGo (n + 1) now force t).1 =
        { (updateCore force
            (rowsPossiblyChangedWith (fun t => updateGo n now false t) t).1).1 with
          deleteNodesTimer := some (now + 100) } := by
      simp only [updateGo]
    rw [hgo]
    refine ⟨hit2.trans hit1, hst2.trans hst1, hch2.trans hch1, hcl2.trans hcl1,
      hmh2.trans hmh1, hpin2.trans hpin1, ?_, ?_⟩
    · intro hne
      exact (hih2 (by rw [hih1 hne]; exact hne)).trans (hih1 hne)
    · intro hs
      have hs1 : (rowsPossiblyChangedWith (fun t => updateGo n now false t) t).1.items = none ∨
          (rowsPossiblyChangedWith (fun t => updateGo n now false t) t).1.items =
            some (rowsPossiblyChangedWith (fun t => updateGo n now false t) t).1.totalRows := by
        rcases hs with h | h
        · exact Or.inl (hit1.trans h)
        · right
          rw [hit1, htot1 (Or.inr h)]
          exact h
      exact (htot2 hs1).trans (htot1 hs)

/-- `updateCore` never changes the recorded row count. -/
theorem updateCore_totalRows (force : Bool) (t : VList) :
    (updateCore force t).1.totalRows = t.totalRows := by
  by_cases h1 : force = true ∨ t.curStartItem = none ∨
      t.maxBuffer < |t.scrollTop - t.lastRepaintY|
  · by_cases h2 : 0 < t.itemHeight ∧ t.screenItemsLen ≠ 0
    · rw [updateCore_stale_render force t h2.1 h2.2 h1]
      exact (renderChunk_frame t (windowStartOf t.scrollTop t.itemHeight t.screenItemsLen)).2.2.1
    · rw [updateCore_no_metrics force t h2]
  · have he : updateCore force t = (t, Ev.nil) := by
      unfold updateCore
      rw [if_neg h1]
    rw [he]

/-- `heightChanged` preserves the recorded row count when it is in sync
with `items`. -/
theorem heightChangedWith_totalRows_sync (upd : VList → VList × Ev)
    (hupd : FramePreserved upd) (s : VList)
    (hsync : s.items = none ∨ s.items = some s.totalRows) :
    (heightChangedWith upd s).1.totalRows = s.totalRows := by
  unfold heightChangedWith
  refine (hupd _).2.2.2.2.2.2.2 ?_
  rcases hsync with h | h
  · exact Or.inl h
  · exact Or.inr h

/-- When an `items` array is present, `rowsPossiblyChanged` records its
length as the row count. -/
theorem rowsPossiblyChangedWith_totalRows_items (upd : VList → VList × Ev)
    (hupd : FramePreserved upd) (s : VList) (m : ℕ) (h : s.items = some m) :
    (rowsPossiblyChangedWith upd s).1.totalRows = m := by
  have hhc := heightChangedWith_framePreserved upd hupd
  unfold rowsPossiblyChangedWith
  dsimp only
  rw [h]
  dsimp only
  split
  · rename_i hcond
    have hcr := createRow_fr { s with items := some m, totalRows := m } 0
    split
    · rw [hcr]
    · refine (heightChangedWith_totalRows_sync upd hupd _ ?_).trans (by rw [hcr])
      right
      rw [hcr]
  · split
    · exact heightChangedWith_totalRows_sync upd hupd _ (Or.inr rfl)
    · split
      · exact heightChangedWith_totalRows_sync upd hupd _ (Or.inr rfl)
      · rfl

/-- The construction options of the C9 counterexample: items of length 3
together with an explicit `totalRows` of 10. -/
def cfgC9 : Config :=
  { itemHeight := some 20, items := some 3, totalRows := some 10,
    pinFirstRow := false, h := false }

/-- C9 counterexample: the constructor records the explicit override 10,
but the first `update` call silently replaces it by `items.length = 3`. -/
theorem totalRows_override_counterexample :
    (init cfgC9 200 200 20 0).1.totalRows = 10 ∧
    (update 0 false (init cfgC9 200 200 20 0).1).1.totalRows = 3 := by
  constructor
  · norm_num [init, initState, initTotalRows, cfgC9]
  · have hgo : (update 0 false (init cfgC9 200 200 20 0).1).1 =
        { (updateCore false
            (rowsPossiblyChangedWith (fun t => updateGo 2 0 false t)
              (init cfgC9 200 200 20 0).1).1).1 with
          deleteNodesTimer := some (0 + 100) } := by
      show (updateGo (2 + 1) 0 false (init cfgC9 200 200 20 0).1).1 = _
      simp only [updateGo]
    rw [hgo]
    show (updateCore false
        (rowsPossiblyChangedWith (fun t => updateGo 2 0 false t)
          (init cfgC9 200 200 20 0).1).1).1.totalRows = 3
    rw [updateCore_totalRows]
    refine rowsPossiblyChangedWith_totalRows_items _ (updateGo_framePreserved 2 0 false) _ 3 ?_
    norm_num [init, initState, cfgC9]

/-- C9 (amended): the explicit `totalRows` override governs only the
constructor's field initialisation.  If no `items` array is supplied the
recorded count persists across `update` calls; but when `items` is also
supplied, every `update` replaces the recorded count by `items.length`,
silently discarding the override. -/
theorem totalRows_override_amended (cfg : Config) (n m : ℕ) (ch cl mh now : ℚ)
    (force : Bool) (s : VList) :
    (cfg.totalRows = some n → (initState cfg ch cl mh).totalRows = n) ∧
    (s.items = none → (update now force s).1.totalRows = s.totalRows) ∧
    (s.items = some m → (update now force s).1.totalRows = m) := by
  refine ⟨fun h => ?_, fun h => ?_, fun h => ?_⟩
  · show initTotalRows cfg = n
    unfold initTotalRows
    rw [h]
  · exact (updateGo_framePreserved 3 now force s).2.2.2.2.2.2.2 (Or.inl h)
  · have hgo : (update now force s).1 =
        { (updateCore force
            (rowsPossiblyChangedWith (fun t => updateGo 2 now false t) s).1).1 with
          deleteNodesTimer := some (now + 100) } := by
      show (updateGo (2 + 1) now force s).1 = _
      simp only [updateGo]
    rw [hgo]
    show (updateCore force
        (rowsPossiblyChangedWith (fun t => updateGo 2 now false t) s).1).1.totalRows = m
    rw [updateCore_totalRows]
    exact rowsPossiblyChangedWith_totalRows_items _ (updateGo_framePreserved 2 now false) s m h

/-- C9 witness: concretely, with the override 7 and no items the count 7
persists through `update`; with items of length 4 the recorded count 9 is
replaced by 4. -/
theorem totalRows_override_amended_witness :
    (initState { itemHeight := some 20, items := none, totalRows := some 7,
                 pinFirstRow := false, h := false } 200 200 20).totalRows = 7 ∧
    (update 0 false { stateC1 with items := none, totalRows := 7 }).1.totalRows = 7 ∧
    (update 0 false { stateC1 with items := some 4, totalRows := 9 }).1.totalRows = 4 := by
  have h1 := (totalRows_override_amended
    { itemHeight := some 20, items := none, totalRows := some 7,
      pinFirstRow := false, h := false } 7 4 200 200 20 0 false stateC1).1 rfl
  have h2 := (totalRows_override_amended cfgC9 7 4 200 200 20 0 false
    { stateC1 with items := none, totalRows := 7 }).2.1 rfl
  have h3 := (totalRows_override_amended cfgC9 7 4 200 200 20 0 false
    { stateC1 with items := some 4, totalRows := 9 }).2.2 rfl
  exact ⟨h1, h2, h3⟩

/-- An `update` does not move the scroll offset, the row height (when
known) or the synced row count, so the topmost visible row index is
unchanged by it. -/
theorem getRowIndexAt_after_updateGo (fuel : ℕ) (now : ℚ) (force : Bool) (t : VList)
    (hih : t.itemHeight ≠ 0)
    (hsync : t.items = none ∨ t.items = some t.totalRows) :
    getRowIndexAt (updateGo fuel now force t).1 0 = getRowIndexAt t 0 := by
  obtain ⟨_, hst, _, _, _, _, hihp, htot⟩ := updateGo_framePreserved fuel now force t
  unfold getRowIndexAt
  rw [hst, hihp hih, htot hsync]

/-- C5: for every h > 0 in a ready state (RowHeight known and positive,
totalRows > 0, row count in sync with `items`), `setRowHeight(h)` preserves
the identity of the topmost visible row: `getRowIndexAt(0)` is unchanged,
because the scroll offset is recomputed as `h * topRow`. -/
theorem setRowHeight_preserves_top_row (now v : ℚ) (s : VList)
    (hv : 0 < v) (hih : 0 < s.itemHeight) (hT : 0 < s.totalRows)
    (hsync : s.items = none ∨ s.items = some s.totalRows) :
    getRowIndexAt (setRowHeight now v s).1 0 = getRowIndexAt s 0 := by
  by_cases hveq : v = s.itemHeight
  · have he : setRowHeight now v s = (s, Ev.nil) := by
      unfold setRowHeight
      rw [if_pos (Or.inr hveq)]
    rw [he]
  · have htr : getRowIndexAt s 0 < (s.totalRows : ℤ) := by
      unfold getRowIndexAt
      dsimp only
      split
      · assumption
      · have h0 : (0 : ℤ) ≤ (s.totalRows : ℤ) := Int.ofNat_zero_le s.totalRows
        omega
    have hcond : ¬ (v ≤ 0 ∨ v = s.itemHeight) := by
      rintro (h | h)
      · exact absurd hv (not_lt.mpr h)
      · exact hveq h
    have hsr : (setRowHeight now v s).1 =
        (heightChangedWith (fun t => updateGo 3 now false t)
          { s with itemHeight := v, scrollTop := v * (getRowIndexAt s 0 : ℚ) }).1 := by
      unfold setRowHeight
      rw [if_neg hcond]
    rw [hsr]
    unfold heightChangedWith
    dsimp only
    rw [getRowIndexAt_after_updateGo 3 now false _ (ne_of_gt hv) ?hs3]
    case hs3 =>
      rcases hsync with h | h
      · exact Or.inl h
      · exact Or.inr h
    generalize hg : getRowIndexAt s 0 = tr at htr ⊢
    unfold getRowIndexAt
    dsimp only
    have hfl : ⌊(0 + v * (tr : ℚ)) / v⌋ = tr := by
      rw [zero_add, mul_comm, mul_div_assoc, div_self (ne_of_gt hv), mul_one, Int.floor_intCast]
    rw [hfl, if_pos htr]

/-- The ready state of the C5 witness: row height 20, scrolled to 400 (top
row 20), 1000 rows. -/
def stateC5 : VList :=
  { stateC1 with curStartItem := some 10, lastRepaintY := 400 }

/-- C5 witness: changing the row height from 20 to 35 in the concrete
state keeps `getRowIndexAt(0) = 20`. -/
theorem setRowHeight_preserves_top_row_witness :
    getRowIndexAt (setRowHeight 0 35 stateC5).1 0 = getRowIndexAt stateC5 0 ∧
    getRowIndexAt stateC5 0 = 20 := by
  refine ⟨setRowHeight_preserves_top_row 0 35 stateC5
    (by norm_num) (by show (0:ℚ) < 20; norm_num) (by norm_num [stateC5, stateC1])
    (Or.inl rfl), ?_⟩
  norm_num [getRowIndexAt, stateC5, stateC1]

/-- A full `update(false)` on a quiescent ready state only reschedules the
cleanup timer: no element is created, marked or removed. -/
theorem update_quiescent_noop (now : ℚ) (t : VList) (c : ℤ)
    (hih : t.itemHeight ≠ 0)
    (hsync : t.items = none ∨ t.items = some t.totalRows)
    (hsil : t.screenItemsLen ≠ 0)
    (hcur : t.curStartItem = some c)
    (hnb : |t.scrollTop - t.lastRepaintY| ≤ t.maxBuffer) :
    update now false t = ({ t with deleteNodesTimer := some (now + 100) }, Ev.nil) := by
  have hrpc := rowsPossiblyChanged_id (fun x => updateGo 2 now false x) t hih hsync hsil
  have hspl := updateGo_split 2 now false t hrpc
  have hcore := updateCore_not_stale false t c rfl hcur hnb
  show updateGo (2 + 1) now false t = _
  rw [hspl, hcore]

set_option maxHeartbeats 4000000 in
/-- C3: calling `update(false)` twice in succession with no change to the
scroll offset, viewport, items, row count or row height in between (in a
ready state: known positive row height, `_screenItemsLen` set, a
nonnegative `_maxBuffer`, row count in sync with `items`) produces no
element event on the second call: nothing is created, marked or removed,
and the element set, the window anchor and the pinned-row reference are
unchanged. -/
theorem update_idempotent (now1 now2 : ℚ) (s : VList)
    (hih : 0 < s.itemHeight)
    (hsil : s.screenItemsLen ≠ 0)
    (hmb : 0 ≤ s.maxBuffer)
    (hsync : s.items = none ∨ s.items = some s.totalRows) :
    (update now2 false (update now1 false s).1).2 = Ev.nil ∧
    (update now2 false (update now1 false s).1).1.elems = (update now1 false s).1.elems ∧
    (update now2 false (update now1 false s).1).1.curStartItem =
      (update now1 false s).1.curStartItem ∧
    (update now2 false (update now1 false s).1).1.firstRow = (update now1 false s).1.firstRow := by
  by_cases hstale : s.curStartItem = none ∨ s.maxBuffer < |s.scrollTop - s.lastRepaintY|
  · have hrpc1 := rowsPossiblyChanged_id (fun x => updateGo 2 now1 false x) s
      (ne_of_gt hih) hsync hsil
    have hspl1 := updateGo_split 2 now1 false s hrpc1
    have hcore1 := updateCore_stale_render false s hih hsil (Or.inr hstale)
    obtain ⟨hihf, hitf, htotf, hstf, hsilf, hcachf, hmbf, hpinf, hchf, hclf, hmhf, _, _, hcurf⟩ :=
      renderChunk_frame s (windowStartOf s.scrollTop s.itemHeight s.screenItemsLen)
    have e1 : (update now1 false s).1 =
        { (renderChunk s (windowStartOf s.scrollTop s.itemHeight s.screenItemsLen)).1 with
            lastRepaintY := s.scrollTop, deleteNodesTimer := some (now1 + 100) } := by
      show (updateGo (2 + 1) now1 false s).1 = _
      rw [hspl1, hcore1]
    have h2 := update_quiescent_noop now2 (update now1 false s).1
      (windowStartOf s.scrollTop s.itemHeight s.screenItemsLen)
      (by rw [e1]; show (renderChunk s _).1.itemHeight ≠ 0; rw [hihf]; exact ne_of_gt hih)
      (by rw [e1]
          show (renderChunk s _).1.items = none ∨
            (renderChunk s _).1.items = some (renderChunk s _).1.totalRows
          rw [hitf, htotf]
          exact hsync)
      (by rw [e1]; show (renderChunk s _).1.screenItemsLen ≠ 0; rw [hsilf]; exact hsil)
      (by rw [e1]; exact hcurf)
      (by rw [e1]
          show |(renderChunk s _).1.scrollTop - s.scrollTop| ≤ (renderChunk s _).1.maxBuffer
          rw [hstf, hmbf, sub_self, abs_zero]
          exact hmb)
    refine ⟨?_, ?_, ?_, ?_⟩ <;> rw [h2]
  · push_neg at hstale
    obtain ⟨hne, hnb⟩ := hstale
    obtain ⟨c, hcur⟩ := Option.ne_none_iff_exists'.mp hne
    have h1 := update_quiescent_noop now1 s c (ne_of_gt hih) hsync hsil hcur hnb
    have h2 := update_quiescent_noop now2 (update now1 false s).1 c
      (by rw [h1]; exact ne_of_gt hih)
      (by rw [h1]; exact hsync)
      (by rw [h1]; exact hsil)
      (by rw [h1]; exact hcur)
      (by rw [h1]; exact hnb)
    refine ⟨?_, ?_, ?_, ?_⟩ <;> rw [h2]

/-- C3 witness: in the concrete scenario state the first `update` renders
the window and the second produces no element event and leaves the window
anchor, element set and pinned-row reference unchanged. -/
theorem update_idempotent_witness :
    (update 5 false (update 0 false stateC1).1).2 = Ev.nil ∧
    (update 5 false (update 0 false stateC1).1).1.elems = (update 0 false stateC1).1.elems ∧
    (update 5 false (update 0 false stateC1).1).1.curStartItem =
      (update 0 false stateC1).1.curStartItem := by
  have h := update_idempotent 0 5 stateC1
    (by show (0:ℚ) < 20; norm_num)
    (by show (10:ℤ) ≠ 0; norm_num)
    (by show (0:ℚ) ≤ 132; norm_num)
    (Or.inl rfl)
  exact ⟨h.1, h.2.1, h.2.2.1⟩

/-- Marking any index range in an empty container does nothing. -/
theorem markRange_nil (is : List ℤ) (ih : ℚ) (skip : Bool) :
    markRange [] ih is skip = ([], []) := by
  induction is with
  | nil => rfl
  | cons i rest IH =>
    unfold markRange
    split
    · exact IH
    · simp only [markRowIdx]
      rw [IH]
      rfl

/-- Rendering any chunk of an empty collection in an element-free state
creates nothing, marks nothing and leaves the pinned-row reference
alone. -/
theorem renderChunk_empty (s : VList) (f : ℤ)
    (h0 : s.totalRows = 0) (hf : 0 ≤ f) (helems : s.elems = []) :
    (renderChunk s f).1.elems = [] ∧
    (renderChunk s f).1.firstRow = s.firstRow ∧
    (renderChunk s f).2 = Ev.nil := by
  have hfin : windowEndOf f s.cachedItemsLen s.totalRows ≤ f := by
    unfold windowEndOf
    rw [h0]
    exact le_trans (min_le_right _ _) hf
  unfold renderChunk
  dsimp only
  rw [intRange_eq_nil hfin]
  dsimp only [buildFragment]
  cases hcur : s.curStartItem with
  | none =>
    dsimp only
    rw [helems]
    exact ⟨by trivial, by trivial, by trivial⟩
  | some last =>
    dsimp only
    rw [helems]
    simp only [markRange_nil]
    exact ⟨by trivial, by trivial, by trivial⟩

/-- The staleness-and-render step on an element-free state of an empty
collection creates nothing and keeps the pinned-row reference. -/
theorem updateCore_empty (force : Bool) (s : VList)
    (h0 : s.totalRows = 0) (helems : s.elems = []) :
    (updateCore force s).1.elems = [] ∧
    (updateCore force s).1.firstRow = s.firstRow ∧
    (updateCore force s).2 = Ev.nil := by
  by_cases h1 : force = true ∨ s.curStartItem = none ∨
      s.maxBuffer < |s.scrollTop - s.lastRepaintY|
  · by_cases h2 : 0 < s.itemHeight ∧ s.screenItemsLen ≠ 0
    · rw [updateCore_stale_render force s h2.1 h2.2 h1]
      obtain ⟨he, hfr, hev⟩ := renderChunk_empty s
        (windowStartOf s.scrollTop s.itemHeight s.screenItemsLen) h0
        (windowStartOf_nonneg _ _ _) helems
      exact ⟨he, hfr, hev⟩
    · rw [updateCore_no_metrics force s h2]
      exact ⟨helems, rfl, rfl⟩
  · have he : updateCore force s = (s, Ev.nil) := by
      unfold updateCore
      rw [if_neg h1]
    rw [he]
    exact ⟨helems, rfl, rfl⟩

/-- On an empty collection, `rowsPossiblyChanged` at most re-records the
zero count and triggers nothing. -/
theorem rowsPossiblyChanged_zero (upd : VList → VList × Ev) (s : VList)
    (h0 : s.totalRows = 0) (hsync0 : s.items = none ∨ s.items = some 0) :
    (s.items = none → rowsPossiblyChangedWith upd s = (s, Ev.nil)) ∧
    (s.items = some 0 →
      rowsPossiblyChangedWith upd s = ({ s with totalRows := 0 }, Ev.nil)) := by
  constructor
  · intro hit
    unfold rowsPossiblyChangedWith
    dsimp only
    rw [hit]
    rw [if_neg (fun h => h.2 h0)]
    rw [if_neg (fun h => h.1 rfl)]
    rw [if_neg (fun h => h.1 h0)]
  · intro hit
    unfold rowsPossiblyChangedWith
    dsimp only
    rw [hit]
    dsimp only
    rw [if_neg (fun h => h.2 rfl)]
    rw [if_neg (fun h => h.1 (by rw [h0]))]
    rw [if_neg (fun h => h.1 rfl)]

/-- A full `update` on an element-free state of an empty collection
creates no element and leaves the pinned-row reference alone. -/
theorem updateGo_empty (fuel : ℕ) (now : ℚ) (force : Bool) (s : VList)
    (h0 : s.totalRows = 0) (hsync0 : s.items = none ∨ s.items = some 0)
    (helems : s.elems = []) :
    (updateGo (fuel + 1) now force s).1.elems = [] ∧
    (updateGo (fuel + 1) now force s).1.firstRow = s.firstRow ∧
    (updateGo (fuel + 1) now force s).2 = Ev.nil := by
  have hgo : updateGo (fuel + 1) now force s =
      ({ (updateCore force
          (rowsPossiblyChangedWith (fun t => updateGo fuel now false t) s).1).1 with
        deleteNodesTimer := some (now + 100) },
       Ev.app (rowsPossiblyChangedWith (fun t => updateGo fuel now false t) s).2
         (updateCore force
           (rowsPossiblyChangedWith (fun t => updateGo fuel now false t) s).1).2) := by
    simp only [updateGo]
  rcases hsync0 with hit | hit
  · have hrpc := (rowsPossiblyChanged_zero (fun t => updateGo fuel now false t) s h0
      (Or.inl hit)).1 hit
    obtain ⟨he, hfr, hev⟩ := updateCore_empty force s h0 helems
    rw [hgo, hrpc]
    dsimp only
    exact ⟨he, hfr, by rw [hev]; rfl⟩
  · have hrpc := (rowsPossiblyChanged_zero (fun t => updateGo fuel now false t) s h0
      (Or.inr hit)).2 hit
    obtain ⟨he, hfr, hev⟩ := updateCore_empty force { s with totalRows := 0 } rfl helems
    rw [hgo, hrpc]
    dsimp only
    exact ⟨he, hfr, by rw [hev]; rfl⟩

/-- An operation keeps the pinned-row reference set once it is set. -/
def KeepsPinRef (upd : VList → VList × Ev) : Prop :=
  ∀ t : VList, t.firstRow.isSome = true → (upd t).1.firstRow.isSome = true

theorem createRow_pinRef (s : VList) (i : ℤ) (h : s.firstRow.isSome = true) :
    (createRow s i).1.firstRow.isSome = true := by
  unfold createRow
  dsimp only
  split
  · rfl
  · exact h

theorem buildFragment_pinRef (is : List ℤ) (s : VList) (h : s.firstRow.isSome = true) :
    (buildFragment s is).1.firstRow.isSome = true := by
  induction is generalizing s with
  | nil => exact h
  | cons i rest IH =>
    unfold buildFragment
    split
    · exact IH s h
    · dsimp only
      split
      · exact IH _ (createRow_pinRef s i h)
      · exact IH s h

theorem renderChunk_pinRef (s : VList) (f : ℤ) (h : s.firstRow.isSome = true) :
    (renderChunk s f).1.firstRow.isSome = true := by
  show (buildFragment s (intRange f (windowEndOf f s.cachedItemsLen s.totalRows))).1.firstRow.isSome = true
  exact buildFragment_pinRef _ s h

theorem updateCore_pinRef (force : Bool) : KeepsPinRef (updateCore force) := by
  intro t h
  by_cases h1 : force = true ∨ t.curStartItem = none ∨
      t.maxBuffer < |t.scrollTop - t.lastRepaintY|
  · by_cases h2 : 0 < t.itemHeight ∧ t.screenItemsLen ≠ 0
    · rw [updateCore_stale_render force t h2.1 h2.2 h1]
      exact renderChunk_pinRef t _ h
    · rw [updateCore_no_metrics force t h2]
      exact h
  · have he : updateCore force t = (t, Ev.nil) := by
      unfold updateCore
      rw [if_neg h1]
    rw [he]
    exact h

theorem heightChangedWith_pinRef (upd : VList → VList × Ev)
    (hupd : KeepsPinRef upd) : KeepsPinRef (heightChangedWith upd) := by
  intro t h
  unfold heightChangedWith
  exact hupd _ h

theorem rowsPossiblyChangedWith_pinRef (upd : VList → VList × Ev)
    (hupd : KeepsPinRef upd) : KeepsPinRef (rowsPossiblyChangedWith upd) := by
  have hhc := heightChangedWith_pinRef upd hupd
  intro t h
  unfold rowsPossiblyChangedWith
  dsimp only
  rcases hi : t.items with _ | m
  · dsimp only
    split
    · split
      · exact createRow_pinRef t 0 h
      · exact hhc _ (createRow_pinRef t 0 h)
    · split
      · exact hhc t h
      · split
        · exact hhc t h
        · exact h
  · dsimp only
    split
    · split
      · exact createRow_pinRef { t with items := some m, totalRows := m } 0 h
      · exact hhc _ (createRow_pinRef { t with items := some m, totalRows := m } 0 h)
    · split
      · exact hhc { t with items := some m, totalRows := m } h
      · split
        · exact hhc { t with items := some m, totalRows := m } h
        · exact h

theorem updateGo_pinRef (fuel : ℕ) (now : ℚ) (force : Bool) :
    KeepsPinRef (fun t => updateGo fuel now force t) := by
  induction fuel generalizing force with
  | zero => exact fun t h => h
  | succ n IH =>
    intro t h
    have hgo : (updateGo (n + 1) now force t).1 =
        { (updateCore force
            (rowsPossiblyChangedWith (fun x => updateGo n now false x) t).1).1 with
          deleteNodesTimer := some (now + 100) } := by
      simp only [updateGo]
    rw [hgo]
    exact updateCore_pinRef force _
      (rowsPossiblyChangedWith_pinRef _ (IH false) t h)

/-- The left endpoint of a nonempty integer range is a member. -/
theorem intRange_mem_left (a b : ℤ) (h : a < b) : a ∈ intRange a b := by
  unfold intRange
  simp
  exact ⟨0, by push_cast; omega, by simp⟩

/-- When the creation loop runs over a list containing index 0 with
pinning enabled and no previous window (so every row is created), the
pinned-row reference is set afterwards: `createRow(0)` records it
(src/vlist.js:185-186). -/
theorem buildFragment_creates_pin (is : List ℤ) (s : VList)
    (hpin : s.pinFirstRow = true) (hcur : s.curStartItem = none)
    (hmem : (0:ℤ) ∈ is) :
    (buildFragment s is).1.firstRow.isSome = true := by
  induction is generalizing s with
  | nil => cases hmem
  | cons i rest IH =>
    unfold buildFragment
    by_cases hskip : i = 0 ∧ s.firstRow.isSome = true ∧ s.pinFirstRow = true
    · rw [if_pos hskip]
      exact buildFragment_pinRef rest s hskip.2.1
    · rw [if_neg hskip]
      dsimp only
      rw [hcur]
      dsimp only
      rw [if_pos rfl]
      dsimp only
      by_cases hi : i = 0
      · subst hi
        have h1 : ((createRow s 0).1.firstRow).isSome = true := by
          unfold createRow
          dsimp only
          rw [if_pos ⟨hpin, rfl⟩]
          rfl
        exact buildFragment_pinRef rest _ h1
      · have hmem2 : (0:ℤ) ∈ rest := by
          rcases List.mem_cons.mp hmem with h | h
          · exact absurd h.symm hi
          · exact h
        have hp : (createRow s i).1.pinFirstRow = true := by
          unfold createRow
          dsimp only
          split
          · exact hpin
          · exact hpin
        have hc : (createRow s i).1.curStartItem = none := by
          unfold createRow
          dsimp only
          split
          · exact hcur
          · exact hcur
        exact IH _ hp hc hmem2

/-- A fresh render (no previous window) whose chunk contains index 0 sets
the pinned-row reference when pinning is enabled. -/
theorem renderChunk_creates_pin (s : VList) (f : ℤ)
    (hpin : s.pinFirstRow = true) (hcur : s.curStartItem = none)
    (hmem : (0:ℤ) ∈ intRange f (windowEndOf f s.cachedItemsLen s.totalRows)) :
    (renderChunk s f).1.firstRow.isSome = true := by
  show (buildFragment s
    (intRange f (windowEndOf f s.cachedItemsLen s.totalRows))).1.firstRow.isSome = true
  exact buildFragment_creates_pin _ s hpin hcur hmem

/-- A widget whose row count starts at 0 with a 5-item collection supplied
and pinning enabled: the constructor's pinned-row step (src/vlist.js:61-65)
did not fire, and no later step re-creates the pinned row. -/
def stateC8 : VList :=
  { itemHeight := 20
    items := some 5
    totalRows := 0
    pinFirstRow := true
    screenItemsLen := 0
    cachedItemsLen := 0
    maxBuffer := 0
    lastRepaintY := 0
    scrollTop := 0
    curStartItem := none
    firstRow := none
    elems := []
    scrollerHeight := 0
    deleteNodesTimer := none
    containerHeight := 0
    clientHeight := 0
    measuredRowHeight := 20 }

/-- The laid-out variant of the counterexample state
(`containerHeight = 200`): here the first update both grows the count to 5
and renders a window containing index 0, so `createRow(0)` runs and the
pinned row IS created. -/
def stateC8laid : VList :=
  { stateC8 with containerHeight := 200 }

/-- The state after the first update's `rowsPossiblyChanged` on the
laid-out state: the count re-derived to 5, the `heightChanged` metrics set
and the nested update rendered the window `[0, 5)` — creating the pinned
row along the way. -/
def stateC8mid : VList :=
  { itemHeight := 20
    items := some 5
    totalRows := 5
    pinFirstRow := true
    screenItemsLen := 10
    cachedItemsLen := 30
    maxBuffer := 132
    lastRepaintY := 0
    scrollTop := 0
    curStartItem := some 0
    firstRow := some { top := 0, stale := false }
    elems := [{ top := 0, stale := false }, { top := 20, stale := false },
              { top := 40, stale := false }, { top := 60, stale := false },
              { top := 80, stale := false }]
    scrollerHeight := 100
    deleteNodesTimer := some 100
    containerHeight := 200
    clientHeight := 0
    measuredRowHeight := 20 }

/-- C8 counterexample: with pinning enabled, an update can leave
`totalRows > 0` (the collection has 5 items) while the pinned row is
absent: the row count was 0 at construction (so the constructor's
pinned-row step did not fire) and grows to 5 on the first update, but the
container has no layout (`containerHeight = 0`), so `_screenItemsLen`
stays 0, the update never renders, `createRow(0)` is never reached and
`firstRow` stays unset. -/
theorem pinned_row_claim_counterexample :
    stateC8.pinFirstRow = true ∧
    0 < (update 0 false stateC8).1.totalRows ∧
    (update 0 false stateC8).1.firstRow = none := by
  refine ⟨rfl, ?_, ?_⟩ <;>
    norm_num [update, updateGo, rowsPossiblyChangedWith, heightChangedWith,
      updateCore, renderChunk, buildFragment, intRange, createRow, markRange,
      markRowIdx, windowStartOf, windowEndOf, screenItemsOf, cachedItemsOf,
      maxBufferOf, jsTrunc, Ev.app, Ev.nil, stateC8]

set_option maxHeartbeats 4000000 in
/-- C8 (corrected): the pinned-row reference is set wherever `createRow(0)`
runs with pinning enabled (src/vlist.js:185-186), not only at construction:
(i) construction with pinning and a positive row count creates and records
the pinned row; (ii) every `update` call preserves an existing pinned-row
reference (it is exempt from the stale/removal lifecycle); (iii) a
zero-count construction (no items or an empty items array) creates no row
element and leaves the pinned row absent even with `pinFirstRow` set;
(iv) an `update` on a ready pinned state with no window rendered yet whose
new window starts at 0 and is nonempty reaches `createRow(0)` and sets the
pinned row; (v) concretely, the laid-out variant of the counterexample
state gains the pinned row on the very update that grows the count from 0
to 5. The pinned row can thus be absent with `totalRows > 0` only while no
render has materialized index 0 — as in the counterexample, where the
container has no layout. -/
theorem pinned_row_amended :
    (∀ cfg : Config, ∀ ch clh mh now : ℚ,
      cfg.pinFirstRow = true → 0 < initTotalRows cfg →
      (init cfg ch clh mh now).1.firstRow.isSome = true) ∧
    (∀ s : VList, ∀ now : ℚ, ∀ force : Bool,
      s.firstRow.isSome = true →
      (update now force s).1.firstRow.isSome = true) ∧
    (∀ cfg : Config, ∀ ch clh mh now : ℚ,
      initTotalRows cfg = 0 → (cfg.items = none ∨ cfg.items = some 0) →
      (init cfg ch clh mh now).1.elems = [] ∧
      (init cfg ch clh mh now).1.firstRow = none ∧
      (init cfg ch clh mh now).2.created = []) ∧
    (∀ s : VList, ∀ now : ℚ, ∀ force : Bool,
      s.pinFirstRow = true → 0 < s.itemHeight → s.screenItemsLen ≠ 0 →
      (s.items = none ∨ s.items = some s.totalRows) →
      s.curStartItem = none →
      windowStartOf s.scrollTop s.itemHeight s.screenItemsLen = 0 →
      0 < windowEndOf 0 s.cachedItemsLen s.totalRows →
      (update now force s).1.firstRow.isSome = true) ∧
    ((update 0 false stateC8laid).1.firstRow = some { top := 0, stale := false } ∧
     (update 0 false stateC8laid).1.totalRows = 5) := by
  refine ⟨?_, ?_, ?_, ?_, ?_⟩
  · intro cfg ch clh mh now hpin hpos
    unfold init
    dsimp only
    rw [if_pos (show cfg.pinFirstRow = true ∧ 0 < initTotalRows cfg from ⟨hpin, hpos⟩)]
    dsimp only
    have h1 : ((createRow (initState cfg ch clh mh) 0).1.firstRow).isSome = true := by
      unfold createRow initState
      dsimp only
      rw [if_pos ⟨hpin, rfl⟩]
      rfl
    split
    · exact heightChangedWith_pinRef _ (updateGo_pinRef 3 now false) _ h1
    · exact h1
  · intro s now force h
    exact updateGo_pinRef 3 now force s h
  · intro cfg ch clh mh now h0 hit
    unfold init
    dsimp only
    have hnopin : ¬ (cfg.pinFirstRow = true ∧ 0 < initTotalRows cfg) := by
      rintro ⟨-, hp⟩
      rw [h0] at hp
      exact lt_irrefl 0 hp
    rw [if_neg hnopin]
    dsimp only
    by_cases hh : cfg.h = true
    · rw [if_pos hh]
      dsimp only
      unfold heightChangedWith
      dsimp only
      obtain ⟨he, hfr, hev⟩ := updateGo_empty 2 now false
        { initState cfg ch clh mh with
          screenItemsLen := screenItemsOf (initState cfg ch clh mh).containerHeight
            (initState cfg ch clh mh).itemHeight
          cachedItemsLen := cachedItemsOf (screenItemsOf
            (initState cfg ch clh mh).containerHeight
            (initState cfg ch clh mh).itemHeight)
          maxBuffer := maxBufferOf (screenItemsOf
            (initState cfg ch clh mh).containerHeight
            (initState cfg ch clh mh).itemHeight)
            (initState cfg ch clh mh).itemHeight
          scrollerHeight := (initState cfg ch clh mh).itemHeight *
            (initState cfg ch clh mh).totalRows }
        h0 hit rfl
      refine ⟨he, ?_, ?_⟩
      · rw [hfr]
        rfl
      · show (Ev.app Ev.nil _).created = []
        rw [hev]
        rfl
    · rw [if_neg hh]
      exact ⟨rfl, rfl, rfl⟩
  · intro s now force hpin hih hsil hsync hcur hws hwe
    have hrpc := rowsPossiblyChanged_id (fun t => updateGo 2 now false t) s
      (ne_of_gt hih) hsync hsil
    have hspl := updateGo_split 2 now force s hrpc
    have hcore := updateCore_stale_render force s hih hsil (Or.inr (Or.inl hcur))
    show (updateGo (2 + 1) now force s).1.firstRow.isSome = true
    rw [hspl, hcore]
    show (renderChunk s
      (windowStartOf s.scrollTop s.itemHeight s.screenItemsLen)).1.firstRow.isSome = true
    rw [hws]
    exact renderChunk_creates_pin s 0 hpin hcur (intRange_mem_left 0 _ hwe)
  · have hgo3 : updateGo 3 0 false stateC8laid =
        ({ (updateCore false
             (rowsPossiblyChangedWith (fun t => updateGo 2 0 false t) stateC8laid).1).1 with
           deleteNodesTimer := some (0 + 100) },
         Ev.app (rowsPossiblyChangedWith (fun t => updateGo 2 0 false t) stateC8laid).2
           (updateCore false
             (rowsPossiblyChangedWith (fun t => updateGo 2 0 false t) stateC8laid).1).2) := by
      simp only [updateGo]
    have hmid : rowsPossiblyChangedWith (fun t => updateGo 2 0 false t) stateC8laid =
        (stateC8mid,
         ⟨[{ top := 0, stale := false }, { top := 20, stale := false },
           { top := 40, stale := false }, { top := 60, stale := false },
           { top := 80, stale := false }], []⟩) := by
      norm_num [updateGo, rowsPossiblyChangedWith, heightChangedWith,
        updateCore, renderChunk, buildFragment, intRange, createRow, markRange,
        markRowIdx, windowStartOf, windowEndOf, screenItemsOf, cachedItemsOf,
        maxBufferOf, jsTrunc, Ev.app, Ev.nil, stateC8laid, stateC8, stateC8mid]
    have hcore : updateCore false stateC8mid = (stateC8mid, Ev.nil) :=
      updateCore_not_stale false stateC8mid 0 rfl rfl (by norm_num [stateC8mid])
    constructor
    · show (updateGo 3 0 false stateC8laid).1.firstRow = some { top := 0, stale := false }
      rw [hgo3, hmid]
      dsimp only
      rw [hcore]
      rfl
    · show (updateGo 3 0 false stateC8laid).1.totalRows = 5
      rw [hgo3, hmid]
      dsimp only
      rw [hcore]
      rfl

/-- A ready pinned state (laid-out metrics set as `heightChanged` would,
no window rendered yet) for instantiating the render-creates-pin part of
the amended C8 statement. -/
def stateC8r : VList :=
  { itemHeight := 20
    items := some 5
    totalRows := 5
    pinFirstRow := true
    screenItemsLen := 10
    cachedItemsLen := 30
    maxBuffer := 132
    lastRepaintY := 0
    scrollTop := 0
    curStartItem := none
    firstRow := none
    elems := []
    scrollerHeight := 100
    deleteNodesTimer := none
    containerHeight := 200
    clientHeight := 200
    measuredRowHeight := 20 }

/-- A 5-row pinned configuration for instantiating the amended C8
statement. -/
def cfgC8 : Config :=
  { itemHeight := some 20
    items := some 5
    totalRows := none
    pinFirstRow := true
    h := false }

/-- An empty pinned configuration (no items) with the `config.h` branch
taken, for instantiating the amended C8 statement. -/
def cfgC8z : Config :=
  { itemHeight := some 20
    items := none
    totalRows := none
    pinFirstRow := true
    h := true }

/-- The 5-row pinned state with the pinned-row reference set, for
instantiating the preservation part of the amended C8 statement. -/
def stateC8pin : VList :=
  { stateC8 with firstRow := some { top := 0, stale := false } }

theorem pinned_row_amended_witness :
    (init cfgC8 (200 : ℚ) (200 : ℚ) (20 : ℚ) (0 : ℚ)).1.firstRow.isSome = true ∧
    (update (0 : ℚ) false stateC8pin).1.firstRow.isSome = true ∧
    ((init cfgC8z (0 : ℚ) (0 : ℚ) (20 : ℚ) (0 : ℚ)).1.elems = [] ∧
     (init cfgC8z (0 : ℚ) (0 : ℚ) (20 : ℚ) (0 : ℚ)).1.firstRow = none ∧
     (init cfgC8z (0 : ℚ) (0 : ℚ) (20 : ℚ) (0 : ℚ)).2.created = []) ∧
    (update (0 : ℚ) false stateC8r).1.firstRow.isSome = true :=
  ⟨pinned_row_amended.1 cfgC8 200 200 20 0 rfl (by decide),
   pinned_row_amended.2.1 stateC8pin 0 false rfl,
   pinned_row_amended.2.2.1 cfgC8z 0 0 20 0 (by decide) (Or.inl rfl),
   pinned_row_amended.2.2.2.1 stateC8r 0 false rfl
     (by show (0:ℚ) < 20; norm_num) (by decide) (Or.inr rfl) rfl
     (by norm_num [windowStartOf, jsTrunc, stateC8r]) (by decide)⟩

/-- A two-row viewport (`containerHeight = clientHeight = 20`,
`itemHeight = 10`, so `ScreenItemsLen = 2`, `CachedItemsLen = 6`,
`MaxBuffer = 13.2`) with the window rendered at offset 109
(`curStartItem = 8`, window `[8, 14)`) and the live scroll offset at
122.2. -/
def stateC2 : VList :=
  { itemHeight := 10
    items := none
    totalRows := 1000
    pinFirstRow := false
    screenItemsLen := 2
    cachedItemsLen := 6
    maxBuffer := 66 / 5
    lastRepaintY := 109
    scrollTop := 611 / 5
    curStartItem := some 8
    firstRow := none
    elems := [{ top := 80, stale := false }, { top := 90, stale := false },
              { top := 100, stale := false }, { top := 110, stale := false },
              { top := 120, stale := false }, { top := 130, stale := false }]
    scrollerHeight := 10000
    deleteNodesTimer := none
    containerHeight := 20
    clientHeight := 20
    measuredRowHeight := 10 }

set_option maxHeartbeats 4000000 in
/-- C2 counterexample: with `ScreenItemsLen = 2` the 0.66-screen buffer is
not conservative enough. The state is consistent (metrics derived as in
`heightChanged`, `curStartItem` as rendered at offset 109), the scroll
offset 122.2 is in range and within `MaxBuffer = 13.2` of the rendered
offset — so `update` leaves the window `[8, 14)` untouched — yet row 14
intersects the visible band `[122.2, 142.2)` and lies outside the
materialized range. -/
theorem window_buffer_claim_counterexample :
    stateC2.screenItemsLen = screenItemsOf stateC2.containerHeight stateC2.itemHeight ∧
    stateC2.cachedItemsLen = cachedItemsOf stateC2.screenItemsLen ∧
    stateC2.maxBuffer = maxBufferOf stateC2.screenItemsLen stateC2.itemHeight ∧
    stateC2.curStartItem =
      some (windowStartOf stateC2.lastRepaintY stateC2.itemHeight stateC2.screenItemsLen) ∧
    0 ≤ stateC2.scrollTop ∧
    stateC2.scrollTop ≤ stateC2.itemHeight * stateC2.totalRows - stateC2.clientHeight ∧
    |stateC2.scrollTop - stateC2.lastRepaintY| ≤ stateC2.maxBuffer ∧
    (update 0 false stateC2).1.curStartItem = stateC2.curStartItem ∧
    (update 0 false stateC2).1.elems = stateC2.elems ∧
    rowIntersectsBand 14 stateC2.itemHeight stateC2.scrollTop stateC2.clientHeight ∧
    ¬((8:ℤ) ≤ 14 ∧ (14:ℤ) < windowEndOf 8 stateC2.cachedItemsLen stateC2.totalRows) := by
  have habs : |(66/5:ℚ)| = 66/5 := abs_of_nonneg (by norm_num)
  refine ⟨?_, ?_, ?_, ?_, ?_, ?_, ?_, ?_, ?_, ?_, ?_⟩ <;>
    norm_num [habs, Option.some_ne_none, update, updateGo, rowsPossiblyChangedWith, heightChangedWith,
      updateCore, renderChunk, buildFragment, intRange, createRow, markRange,
      markRowIdx, windowStartOf, windowEndOf, screenItemsOf, cachedItemsOf,
      maxBufferOf, jsTrunc, rowIntersectsBand, Ev.app, Ev.nil, stateC2]

set_option maxHeartbeats 1000000 in
/-- C2 (corrected): the window-coverage invariant needs
`3 ≤ ScreenItemsLen`. With at least three rows per screen, whenever the
rendered window was computed at offset `L`, the live offset `o` is in
scroll range and within `MaxBuffer` of `L` (so no recomputation is
triggered), every row index whose span intersects the visible band
`[o, o + vh)` lies inside
`[windowStartOf L, min(windowStartOf L + CachedItemsLen, totalRows))`.
For `ScreenItemsLen ≤ 2` the invariant fails (see the counterexample). -/
theorem window_buffer_amended (ih vh L o : ℚ) (i : ℤ) (T : ℕ)
    (hih : 0 < ih)
    (h3 : 3 ≤ screenItemsOf vh ih)
    (hL0 : 0 ≤ L)
    (ho0 : 0 ≤ o)
    (hoT : o + vh ≤ ih * (T : ℚ))
    (hbuf : |o - L| ≤ maxBufferOf (screenItemsOf vh ih) ih)
    (hband : rowIntersectsBand i ih o vh) :
    windowStartOf L ih (screenItemsOf vh ih) ≤ i ∧
    i < windowEndOf (windowStartOf L ih (screenItemsOf vh ih))
      (cachedItemsOf (screenItemsOf vh ih)) T := by
  set sil := screenItemsOf vh ih with hsildef
  obtain ⟨hb1, hb2⟩ := hband
  have hih' : ih ≠ 0 := ne_of_gt hih
  have hsil3 : (3:ℚ) ≤ (sil:ℚ) := by exact_mod_cast h3
  have hvh : vh ≤ (sil:ℚ) * ih := by
    have h1 : vh / ih ≤ (sil:ℚ) := by
      rw [hsildef]
      exact Int.le_ceil (vh / ih)
    have h2 : (vh / ih) * ih ≤ (sil:ℚ) * ih := mul_le_mul_of_nonneg_right h1 hih.le
    rw [div_mul_cancel₀ vh hih'] at h2
    exact h2
  have hM := abs_le.mp hbuf
  have hoL : o ≤ L + (sil:ℚ) * (66/100) * ih := by
    have h1 := hM.2
    unfold maxBufferOf at h1
    linarith
  have hsi : (0:ℚ) ≤ (sil:ℚ) * ih := mul_nonneg (by linarith) hih.le
  have hLo : L ≤ o + (sil:ℚ) * ih := by
    have h1 := hM.1
    unfold maxBufferOf at h1
    nlinarith [hsi]
  have hio : o / ih < (i:ℚ) + 1 := by
    rw [div_lt_iff hih]
    linarith
  have hfloor_i : ⌊o / ih⌋ ≤ i := by
    have h1 : ⌊o / ih⌋ < i + 1 := Int.floor_lt.mpr (by push_cast; exact hio)
    omega
  have hLdiv : L / ih ≤ o / ih + (sil:ℚ) := by
    have h2a : L / ih ≤ (o + (sil:ℚ) * ih) / ih := by gcongr
    have h2b : (o + (sil:ℚ) * ih) / ih = o / ih + (sil:ℚ) := by
      rw [add_div, mul_div_assoc, div_self hih', mul_one]
    linarith [h2b ▸ h2a]
  have hfloor_L : ⌊L / ih⌋ ≤ ⌊o / ih⌋ + sil := by
    have h1 : ⌊L / ih⌋ ≤ ⌊o / ih + ((sil:ℤ):ℚ)⌋ := Int.floor_mono hLdiv
    rwa [Int.floor_add_int] at h1
  have hiT : i < (T:ℤ) := by
    have h1 : (i:ℚ) * ih < (T:ℚ) * ih := by linarith
    have h2 := lt_of_mul_lt_mul_right h1 hih.le
    exact_mod_cast h2
  have hup : (i:ℚ) < L / ih + (166/100) * (sil:ℚ) := by
    have hg : (i:ℚ) * ih < L + (166/100) * (sil:ℚ) * ih := by nlinarith [hb1, hoL, hvh]
    have h4 : (i:ℚ) < (L + (166/100) * (sil:ℚ) * ih) / ih := (lt_div_iff hih).mpr hg
    have h5 : (L + (166/100) * (sil:ℚ) * ih) / ih = L / ih + (166/100) * (sil:ℚ) := by
      rw [add_div, mul_div_assoc, div_self hih', mul_one]
    linarith [h5 ▸ h4]
  have hLf : L / ih < (⌊L / ih⌋:ℚ) + 1 := Int.lt_floor_add_one _
  have h6 : i - ⌊L / ih⌋ - 1 < ⌈(166/100) * (sil:ℚ)⌉ := by
    rw [Int.lt_ceil]
    push_cast
    linarith
  have h7 : ⌈(166/100) * (sil:ℚ)⌉ ≤ 2 * sil - 1 := by
    rw [Int.ceil_le]
    push_cast
    linarith
  have h8 : i < ⌊L / ih⌋ + 2 * sil := by omega
  have hi0 : 0 ≤ i := by
    have h9 : (0:ℚ) < ((i:ℚ) + 1) * ih := lt_of_le_of_lt ho0 hb2
    have h10 : (0:ℚ) < (i:ℚ) + 1 := by
      rcases mul_pos_iff.mp h9 with ⟨h, _⟩ | ⟨_, h⟩
      · exact h
      · linarith
    have h11 : (-1:ℤ) < i := by exact_mod_cast (by linarith : (-1:ℚ) < (i:ℚ))
    omega
  rw [windowStartOf_eq_max L ih sil hL0 hih]
  unfold windowEndOf cachedItemsOf
  constructor
  · exact max_le hi0 (by omega)
  · apply lt_min
    · have h12 : ⌊L / ih⌋ - sil ≤ max 0 (⌊L / ih⌋ - sil) := le_max_right _ _
      omega
    · exact hiT

theorem window_buffer_amended_witness :
    windowStartOf 0 10 (screenItemsOf 100 10) ≤ 5 ∧
    (5:ℤ) < windowEndOf (windowStartOf 0 10 (screenItemsOf 100 10))
      (cachedItemsOf (screenItemsOf 100 10)) 1000 :=
  window_buffer_amended 10 100 0 0 5 1000 (by norm_num)
    (by norm_num [screenItemsOf]) (by norm_num) (by norm_num)
    (by norm_num)
    (by norm_num [maxBufferOf, screenItemsOf])
    (by norm_num [rowIntersectsBand])
